import Mathlib

/-!
# Finance tracker: ledger, derived balance, import and export, pay periods

A shallow embedding of `src/script.js`.

Modelling conventions.

* In the handlers, amounts and the balance offset are rationals: the
  arithmetic of the script is read as exact arithmetic (no rounding, no NaN, no
  infinities).  A value that the script obtains with parseFloat is an
  `Option ℚ`, where `none` is NaN.
* The two module-level variables of the script (transactions, balanceOffset)
  form the `Ledger`; every handler is a function from the ledger before the
  event to the ledger after it, together with the alert it raised, if any.
* The import and the export are modelled on the state as it is in memory, the
  `RawLedger`: its elements are arbitrary values and its numbers may be
  Infinity or NaN, since the import assigns whatever passed its validation.
* What a handler reads from the page or from the clock (input values, the
  answer to a prompt, Date.now(), the ISO text of the current instant) is an
  explicit argument.
* Rendering and local storage are not modelled: storage always mirrors the
  ledger.
-/

set_option autoImplicit false

namespace FinanceTracker

/-! ## Data model -/

/-- One stored transaction, with the six fields the script writes
(script.js lines 185-192 and 297-304). -/
structure Transaction where
  id : Int
  description : String
  amount : ℚ
  type : String
  category : String
  date : String
  deriving DecidableEq

/-- The mutable state of the script: lines 2-3. -/
structure Ledger where
  transactions : List Transaction
  balanceOffset : ℚ
  deriving DecidableEq

/-- The alerts the handlers raise; each constructor is one alert call of the
script. -/
inductive Alert where
  /-- Line 154: Please enter an expense name. -/
  | enterExpenseName
  /-- Lines 159 and 634: Please enter a valid amount. -/
  | enterValidAmount
  /-- Lines 180 and 651: Insufficient funds, with the balance shown. -/
  | insufficientFunds (available : ℚ)
  /-- Line 288: Please fill in all fields. -/
  | fillAllFields
  /-- Line 293: Please select a category. -/
  | selectCategory
  /-- Line 365: Please enter a valid number. -/
  | enterValidNumber
  /-- Line 629: Please enter a valid description. -/
  | enterValidDescription
  /-- Lines 579 and 686: Transaction not found. -/
  | transactionNotFound
  deriving DecidableEq

/-- What a handler leaves behind: the ledger after the event and the alert it
raised (none when it ran to its end or returned silently). -/
structure Outcome where
  ledger : Ledger
  alert : Option Alert
  deriving DecidableEq

/-! ## String search -/

/-- Does the list of characters start with the pattern. -/
def startsWithChars : List Char → List Char → Bool
  | _, [] => true
  | [], _ :: _ => false
  | c :: cs, p :: ps => c == p && startsWithChars cs ps

/-- Does the pattern occur at some position of the list of characters. -/
def includesChars : List Char → List Char → Bool
  | [], pat => pat.isEmpty
  | c :: cs, pat => startsWithChars (c :: cs) pat || includesChars cs pat

/-- The method String.prototype.includes with a search string. -/
def includes (s pat : String) : Bool :=
  includesChars s.toList pat.toList

/-- The filter of lines 223-226 (the same at 164-167, 341-344): a transaction
is kept when its description contains neither sentinel. -/
def notAdjustment (t : Transaction) : Bool :=
  !includes t.description "Balance Adjustment" &&
    !includes t.description "Manual Balance Correction"

/-! ## Derived balance -/

/-- The reduce of the script with initial value 0: the sum of the amounts. -/
def sumAmounts (ts : List Transaction) : ℚ :=
  ts.foldl (fun sum t => sum + t.amount) 0

/-- The three values updateSummary renders. -/
structure Summary where
  balance : ℚ
  income : ℚ
  expenses : ℚ
  deriving DecidableEq

/-- Lines 221-241. -/
def updateSummary (s : Ledger) : Summary :=
  let filteredTransactions := s.transactions.filter notAdjustment
  let income := sumAmounts (filteredTransactions.filter (fun t => t.type == "income"))
  let expenses := sumAmounts (filteredTransactions.filter (fun t => t.type == "expense"))
  let balance := income - expenses + s.balanceOffset
  { balance := balance, income := income, expenses := expenses }

/-- The answer to the prompt of editBalance: dismissed (null or the empty
string), or a text together with what parseFloat makes of it. -/
inductive PromptReply where
  | dismissed
  | entered (parsed : Option ℚ)
  deriving DecidableEq

/-- Lines 339-377. -/
def editBalance (s : Ledger) (newBalance : PromptReply) : Outcome :=
  let filteredTransactions := s.transactions.filter notAdjustment
  let currentIncome := sumAmounts (filteredTransactions.filter (fun t => t.type == "income"))
  let currentExpenses := sumAmounts (filteredTransactions.filter (fun t => t.type == "expense"))
  let currentBalance := currentIncome - currentExpenses + s.balanceOffset
  match newBalance with
  | .dismissed => { ledger := s, alert := none }
  | .entered none => { ledger := s, alert := some .enterValidNumber }
  | .entered (some parsedNewBalance) =>
    let difference := parsedNewBalance - currentBalance
    if difference ≠ 0 then
      { ledger := { s with balanceOffset := s.balanceOffset + difference }, alert := none }
    else
      { ledger := s, alert := none }

/-! ## Recording transactions -/

/-- Truthiness of a number obtained with parseFloat: NaN and 0 are falsy. -/
def truthyNumber : Option ℚ → Bool
  | none => false
  | some q => q != 0

/-- The submit handler of the transaction form, lines 279-316.  The arguments
are the values of the fields description, amount (after parseFloat), type and
category, then Date.now() and the ISO text of the current instant. -/
def addTransaction (s : Ledger) (description : String) (amount : Option ℚ)
    (type category : String) (now : Int) (isoNow : String) : Outcome :=
  if description == "" || !truthyNumber amount || type == "" then
    { ledger := s, alert := some .fillAllFields }
  else if category == "" then
    { ledger := s, alert := some .selectCategory }
  else
    let transaction : Transaction :=
      { id := now, description := description, amount := amount.getD 0, type := type,
        category := category, date := isoNow }
    { ledger := { s with transactions := transaction :: s.transactions }, alert := none }

/-- The click handler of the add-expense button of a category card, lines
145-210.  The arguments are the trimmed value of the name field, the value of
the amount field after parseFloat, the data-category attribute of the card,
then Date.now() and the ISO text of the current instant. -/
def addExpense (s : Ledger) (expenseName : String) (expenseAmount : Option ℚ)
    (category : String) (now : Int) (isoNow : String) : Outcome :=
  if expenseName == "" then
    { ledger := s, alert := some .enterExpenseName }
  else
    match expenseAmount with
    | none => { ledger := s, alert := some .enterValidAmount }
    | some amount =>
      if amount == 0 || amount ≤ 0 then
        { ledger := s, alert := some .enterValidAmount }
      else
        let filteredTransactions := s.transactions.filter notAdjustment
        let currentIncome :=
          sumAmounts (filteredTransactions.filter (fun t => t.type == "income"))
        let currentExpenses :=
          sumAmounts (filteredTransactions.filter (fun t => t.type == "expense"))
        let currentBalance := currentIncome - currentExpenses + s.balanceOffset
        if amount > currentBalance then
          { ledger := s, alert := some (.insufficientFunds currentBalance) }
        else
          let transaction : Transaction :=
            { id := now, description := expenseName, amount := amount, type := "expense",
              category := category, date := isoNow }
          { ledger := { s with transactions := transaction :: s.transactions }, alert := none }

/-- One record event with everything it reads: a submit of the form or a click
on the add-expense button of a card. -/
inductive RecordOp where
  | form (description : String) (amount : Option ℚ) (type category : String)
      (now : Int) (isoNow : String)
  | card (expenseName : String) (expenseAmount : Option ℚ) (category : String)
      (now : Int) (isoNow : String)

/-- The handler run by a record event. -/
def RecordOp.run (s : Ledger) : RecordOp → Outcome
  | .form description amount type category now isoNow =>
    addTransaction s description amount type category now isoNow
  | .card expenseName expenseAmount category now isoNow =>
    addExpense s expenseName expenseAmount category now isoNow

/-- Runs the events in order; the result is the final ledger when every event
was successful (ran to its end without an alert). -/
def recordAll : Ledger → List RecordOp → Option Ledger
  | s, [] => some s
  | s, op :: ops =>
    if (op.run s).alert = none then recordAll (op.run s).ledger ops else none

/-- The description an event asks to record. -/
def RecordOp.description : RecordOp → String
  | .form description _ _ _ _ _ => description
  | .card expenseName _ _ _ _ => expenseName

/-- The amount an event asks to record (0 for NaN, which is never recorded). -/
def RecordOp.amount : RecordOp → ℚ
  | .form _ amount _ _ _ _ => amount.getD 0
  | .card _ expenseAmount _ _ _ => expenseAmount.getD 0

/-- The type an event asks to record; a card always records an expense. -/
def RecordOp.type : RecordOp → String
  | .form _ _ type _ _ _ => type
  | .card _ _ _ _ _ => "expense"

/-- The closed form of the specification, over the recorded events: the sum of
the recorded income amounts minus the sum of the recorded expense amounts,
both over the events whose description holds no sentinel, plus the offset. -/
def closedFormBalance (ops : List RecordOp) (b : ℚ) : ℚ :=
  let plain := ops.filter
    (fun op => !includes op.description "Balance Adjustment" &&
      !includes op.description "Manual Balance Correction")
  ((plain.filter (fun op => op.type == "income")).map RecordOp.amount).sum
    - ((plain.filter (fun op => op.type == "expense")).map RecordOp.amount).sum + b

/-- The ledger of the scenario of the specification: Groceries 50 on top of
Paycheck 1000, offset 0, so that the balance is 950. -/
def scenarioLedger : Ledger :=
  { transactions :=
      [ { id := 1706263200000, description := "Groceries", amount := 50, type := "expense",
          category := "Food", date := "2024-01-26T10:00:00.000Z" },
        { id := 1706176800000, description := "Paycheck", amount := 1000, type := "income",
          category := "Salary", date := "2024-01-25T10:00:00.000Z" } ],
    balanceOffset := 0 }

/-- The transaction the form records when asked for Rent 2000 in Housing. -/
def rentTransaction : Transaction :=
  { id := 1706349600000, description := "Rent", amount := 2000, type := "expense",
    category := "Housing", date := "2024-01-27T10:00:00.000Z" }

/-! ## Export and import

The import assigns to the state whatever array of objects the file holds, so
the state it reads and leaves is modelled as it is in memory: a list of values
and a number that may be Infinity or NaN.  The ledger of the handlers above is
the part of these states in which every element is a transaction with its six
fields and every number is finite. -/

/-- A number of the script: a finite one, read as a rational, or Infinity,
-Infinity or NaN. -/
inductive JSNumber where
  | finite (q : ℚ)
  | posInf
  | negInf
  | nan
  deriving DecidableEq

/-- The function isNaN on a number. -/
def JSNumber.isNaN : JSNumber → Bool
  | .nan => true
  | _ => false

/-- A value of the script that JSON can hold: what JSON.parse returns, or an
element of the transactions in memory.  An object is the list of its own
properties in insertion order, so that a key occurs once in it. -/
inductive JSON where
  | null
  | bool (b : Bool)
  | num (x : JSNumber)
  | str (s : String)
  | arr (items : List JSON)
  | obj (members : List (String × JSON))

namespace JSON

/-- Reading the property of a value under a key that is neither an index nor
a built-in of arrays or objects; none is undefined. -/
def get : JSON → String → Option JSON
  | .obj members, key => members.lookup key
  | _, _ => none

/-- Is typeof of the value the text object: so it is for null, arrays and
plain objects. -/
def typeofIsObject : JSON → Bool
  | .null => true
  | .arr _ => true
  | .obj _ => true
  | _ => false

/-- Strict equality with null. -/
def isNull : JSON → Bool
  | .null => true
  | _ => false

/-- Truthiness: null, false, 0, NaN and the empty string are falsy. -/
def truthy : JSON → Bool
  | .null => false
  | .bool b => b
  | .num (.finite q) => q != 0
  | .num .nan => false
  | .num _ => true
  | .str s => s != ""
  | .arr _ => true
  | .obj _ => true

end JSON

/-- Truthiness of what a property read gives; undefined is falsy. -/
def truthyProp : Option JSON → Bool
  | none => false
  | some v => v.truthy

/-- Is typeof of what a property read gives the text number. -/
def typeofIsNumber : Option JSON → Bool
  | some (.num _) => true
  | _ => false

/-- The function isNaN on what a property read gives; the script calls it on
numbers only. -/
def isNaN : Option JSON → Bool
  | some (.num x) => x.isNaN
  | _ => false

/-- Strict equality of what a property read gives with a string. -/
def strictEqString : Option JSON → String → Bool
  | some (.str s), text => s == text
  | _, _ => false

/-- The callback of forEach at lines 785-790: the message of the first check
that throws, if any. -/
def checkEntry (t : JSON) : Except String Unit :=
  if !t.typeofIsObject || t.isNull then
    .error "Invalid transaction entry"
  else if !typeofIsNumber (t.get "amount") || isNaN (t.get "amount") then
    .error "Transaction amount invalid"
  else if !truthyProp (t.get "type") ||
      (!strictEqString (t.get "type") "income" && !strictEqString (t.get "type") "expense") then
    .error "Transaction type invalid"
  else if !truthyProp (t.get "date") then
    .error "Transaction date missing"
  else
    .ok ()

/-- The loop parsed.transactions.forEach of line 785: the callback runs on
the elements in order, and the first throw ends the loop. -/
def forEachEntry : List JSON → Except String Unit
  | [] => .ok ()
  | t :: ts =>
    match checkEntry t with
    | .error message => .error message
    | .ok _ => forEachEntry ts

/-- The validation of lines 782-790: the message of the Error thrown, or the
array parsed.transactions when nothing is thrown. -/
def validateImport (parsed : JSON) : Except String (List JSON) :=
  if !parsed.truthy || !parsed.typeofIsObject then
    .error "Invalid JSON structure"
  else
    match parsed.get "transactions" with
    | some (.arr ts) =>
      match forEachEntry ts with
      | .error message => .error message
      | .ok _ => .ok ts
    | _ => .error "Missing transactions array"

/-- The state of the script as it is in memory (lines 2-3): the elements of
transactions are the objects that were recorded, loaded or imported. -/
structure RawLedger where
  transactions : List JSON
  balanceOffset : JSNumber

/-- The object in memory of a stored transaction. -/
def Transaction.toJSON (t : Transaction) : JSON :=
  .obj [("id", .num (.finite t.id)), ("description", .str t.description),
        ("amount", .num (.finite t.amount)), ("type", .str t.type),
        ("category", .str t.category), ("date", .str t.date)]

/-- The state in memory of a ledger. -/
def Ledger.toRaw (s : Ledger) : RawLedger :=
  { transactions := s.transactions.map Transaction.toJSON,
    balanceOffset := .finite s.balanceOffset }

/-! ### Rendering the state -/

/-- Does the call description.includes(text) of the filter of lines 223-226
throw a TypeError: it does unless the description is a string or an array
(undefined and null have no properties, and on a number, a boolean or an object
includes is not a function). -/
def includesThrows : Option JSON → Bool
  | some (.str _) => false
  | some (.arr _) => false
  | _ => true

/-- The value of description.includes(text) on a string or an array. -/
def includesValue : Option JSON → String → Bool
  | some (.str s), text => includes s text
  | some (.arr items), text => items.any (fun v => strictEqString (some v) text)
  | _, _ => false

mutual
/-- Does the conversion of a value to a string in a template throw a
TypeError: it does on an object with an own property toString, which is never
a function here, and on an array that holds such an object. -/
def toStringThrows : JSON → Bool
  | .arr items => anyToStringThrows items
  | .obj members => members.any (fun kv => kv.1 == "toString")
  | _ => false
/-- Does the conversion of one of the values throw. -/
def anyToStringThrows : List JSON → Bool
  | [] => false
  | v :: vs => toStringThrows v || anyToStringThrows vs
end

/-- Does updateSummary (lines 221-241) throw: the filter throws at the first
element whose description has no method includes; the sums and the formatting
of numbers do not throw. -/
def updateSummaryThrows (ts : List JSON) : Bool :=
  ts.any (fun t => includesThrows (t.get "description"))

/-- Does displayTransactions (lines 244-276) throw, after updateSummary did
not, on elements whose amount is a number: nothing is done when the page has
no list; else the templates convert the category, when it is truthy, and the
description of every element that the filter keeps. -/
def displayTransactionsThrows (hasTransactionsList : Bool) (ts : List JSON) : Bool :=
  hasTransactionsList &&
    (ts.filter (fun t =>
        !includesValue (t.get "description") "Balance Adjustment" &&
          !includesValue (t.get "description") "Manual Balance Correction")).any
      (fun t =>
        (truthyProp (t.get "category") && ((t.get "category").map toStringThrows).getD false) ||
          ((t.get "description").map toStringThrows).getD false)

/-- Does updateUI (lines 215-218) throw on the state. -/
def updateUIThrows (hasTransactionsList : Bool) (ts : List JSON) : Bool :=
  updateSummaryThrows ts || displayTransactionsThrows hasTransactionsList ts

/-! ### The import and the export -/

/-- The alert at the end of the import. -/
inductive ImportAlert where
  /-- Line 795: Import successful. -/
  | successful
  /-- Line 797: Import failed, with the message of an Error that the
  validation threw. -/
  | failed (message : String)
  /-- Line 797: Import failed, with the message that the platform gives to
  the TypeError thrown while the new state was rendered. -/
  | failedRendering

/-- What the import leaves behind: the state and the alert. -/
structure ImportOutcome where
  state : RawLedger
  alert : ImportAlert

/-- The offset that line 792 assigns: the balanceOffset of the bundle when
typeof says it is a number, else 0. -/
def importedOffset (parsed : JSON) : JSNumber :=
  match parsed.get "balanceOffset" with
  | some (.num x) => x
  | _ => .finite 0

/-- The onload callback of importDataFromFile, lines 779-799, on the value
that JSON.parse returned.  The validation throws before anything is assigned;
after it, lines 791-793 assign and save the new state, and updateUI runs
inside the same try, so that a throw of the rendering is caught and reported
as a failure of the import while the new state stays.  The first argument says
whether the page has the list of transactions. -/
def importDataFromFile (hasTransactionsList : Bool) (s : RawLedger) (parsed : JSON) :
    ImportOutcome :=
  match validateImport parsed with
  | .error message => { state := s, alert := .failed message }
  | .ok ts =>
    let imported : RawLedger :=
      { transactions := ts, balanceOffset := importedOffset parsed }
    if updateUIThrows hasTransactionsList imported.transactions then
      { state := imported, alert := .failedRendering }
    else
      { state := imported, alert := .successful }

/-- The bundle of exportData in memory, lines 754-759; the argument isoNow is
the ISO text of the instant of the export. -/
def exportData (s : RawLedger) (isoNow : String) : JSON :=
  .obj [("exportVersion", .num (.finite 1)), ("exportedAt", .str isoNow),
        ("transactions", .arr s.transactions),
        ("balanceOffset", .num s.balanceOffset)]

mutual
/-- What JSON.parse reads back from the text that JSON.stringify writes for a
value (line 760 and line 781): the same value, but for the numbers Infinity,
-Infinity and NaN, which are written as null. -/
def stringifyParse : JSON → JSON
  | .num (.finite q) => .num (.finite q)
  | .num _ => .null
  | .arr items => .arr (stringifyParseItems items)
  | .obj members => .obj (stringifyParseMembers members)
  | v => v
/-- The elements of an array read back. -/
def stringifyParseItems : List JSON → List JSON
  | [] => []
  | v :: vs => stringifyParse v :: stringifyParseItems vs
/-- The properties of an object read back. -/
def stringifyParseMembers : List (String × JSON) → List (String × JSON)
  | [] => []
  | (k, v) :: rest => (k, stringifyParse v) :: stringifyParseMembers rest
end

/-- The state holds no Infinity and no NaN: JSON writes its elements and its
offset back as they are. -/
def JsonExact (s : RawLedger) : Prop :=
  stringifyParseItems s.transactions = s.transactions ∧ ∃ q, s.balanceOffset = .finite q

/-! ### The validation as the specification words it -/

/-- A non-null object; as in the script, an array counts as an object. -/
def isObject : JSON → Bool
  | .arr _ => true
  | .obj _ => true
  | _ => false

/-- The element has a numeric amount that is not NaN. -/
def hasNumericAmount (t : JSON) : Bool :=
  match t.get "amount" with
  | some (.num x) => !x.isNaN
  | _ => false

/-- The type of the element is income or expense. -/
def hasKnownType (t : JSON) : Bool :=
  match t.get "type" with
  | some (.str s) => s == "income" || s == "expense"
  | _ => false

/-- The element has a date: a value under the key date that is not null,
false, 0, NaN or the empty string. -/
def hasDate (t : JSON) : Bool :=
  match t.get "date" with
  | some v => v.truthy
  | none => false

/-- The four checks on an element, in order, each with its reason. -/
def entryChecks : List ((JSON → Bool) × String) :=
  [(isObject, "Invalid transaction entry"),
   (hasNumericAmount, "Transaction amount invalid"),
   (hasKnownType, "Transaction type invalid"),
   (hasDate, "Transaction date missing")]

/-- The element passes the four checks. -/
def entryAcceptable (t : JSON) : Bool :=
  entryChecks.all (fun c => c.1 t)

/-- The reason of the first check that the element fails. -/
def firstFailedCheck (t : JSON) : Option String :=
  (entryChecks.find? (fun c => !c.1 t)).map (fun c => c.2)

/-- The bundle is an object, its transactions are an array, and every element
of the array passes the four checks. -/
def bundleAcceptable (parsed : JSON) : Bool :=
  isObject parsed &&
    match parsed.get "transactions" with
    | some (.arr ts) => ts.all entryAcceptable
    | _ => false

/-- A bundle whose first element is a well-formed transaction and whose second
and last element has a text where the amount should be. -/
def lateViolationBundle : JSON :=
  .obj [("exportVersion", .num (.finite 1)),
        ("transactions", .arr
          [.obj [("id", .num (.finite 1)), ("description", .str "Coffee"),
                 ("amount", .num (.finite 4)), ("type", .str "expense"),
                 ("category", .str "Food"), ("date", .str "2024-02-01T08:00:00.000Z")],
           .obj [("id", .num (.finite 2)), ("description", .str "Tea"),
                 ("amount", .str "three"), ("type", .str "expense"),
                 ("category", .str "Food"), ("date", .str "2024-02-02T08:00:00.000Z")]]),
        ("balanceOffset", .num (.finite 7))]

/-- An element that passes the four checks and has no description. -/
def undescribedEntry : JSON :=
  .obj [("id", .num (.finite 5)), ("amount", .num (.finite 4)), ("type", .str "expense"),
        ("category", .str "Food"), ("date", .str "2024-02-01T08:00:00.000Z")]

/-- A bundle with the element without a description and the offset 7. -/
def undescribedBundle : JSON :=
  .obj [("exportVersion", .num (.finite 1)),
        ("exportedAt", .str "2024-02-04T00:00:00.000Z"),
        ("transactions", .arr [undescribedEntry]),
        ("balanceOffset", .num (.finite 7))]

/-- An element that passes the four checks, with the amount -4 and neither a
description nor a category. -/
def bareEntry : JSON :=
  .obj [("amount", .num (.finite (-4))), ("type", .str "expense"),
        ("date", .str "2024-02-01T08:00:00.000Z")]

/-- A bundle with the bare element and the offset 7. -/
def bareBundle : JSON :=
  .obj [("transactions", .arr [bareEntry]), ("balanceOffset", .num (.finite 7))]

/-- The state in memory of the ledger of the scenario. -/
def scenarioRaw : RawLedger :=
  scenarioLedger.toRaw

/-- A state without transactions whose offset is Infinity, as editBalance
leaves it when the prompt is answered with 1e999 on an empty ledger (line 364
refuses NaN only). -/
def infiniteOffsetState : RawLedger :=
  { transactions := [], balanceOffset := .posInf }

/-! ## Pay periods

A Date of the script is modelled by the fields that its local-time getters
read, in the calendar of a zone with a fixed offset from UTC, and every Date is
a valid one.  The limits of the range of time values are outside the model. -/

/-- A Date in local time: year, month index (0 is January), day of the month,
and the milliseconds since local midnight. -/
@[ext]
structure JSDate where
  year : Int
  month : Nat
  day : Nat
  ms : Nat
  month_lt : month < 12
  day_pos : 1 ≤ day
  day_le : day ≤ 31
  ms_lt : ms < 86400000
  deriving DecidableEq

namespace JSDate

/-- The full year that the constructor makes of its year argument: the years
0 to 99 are read as 1900 to 1999. -/
def makeFullYear (year : Int) : Int :=
  if 0 ≤ year ∧ year ≤ 99 then 1900 + year else year

/-- The constructor new Date(year, monthIndex, day) for a day that every month
has: the year is read by makeFullYear, a month index outside 0..11 carries
into the year, and the time is local midnight. -/
def construct (year monthIndex : Int) (day : Nat) (h : 1 ≤ day ∧ day ≤ 28) : JSDate :=
  { year := makeFullYear year + monthIndex / 12
    month := (monthIndex % 12).toNat
    day := day
    ms := 0
    month_lt := by omega
    day_pos := h.1
    day_le := by omega
    ms_lt := by decide }

/-- The call setHours(0, 0, 0, 0). -/
def startOfDay (d : JSDate) : JSDate :=
  { d with ms := 0, ms_lt := by decide }

/-- The call setHours(23, 59, 59, 999). -/
def endOfDay (d : JSDate) : JSDate :=
  { d with ms := 86399999, ms_lt := by decide }

/-- The comparison a <= b of two Dates, which compares their time values:
in a zone with a fixed offset, the order of the fields read from left to
right. -/
def le (a b : JSDate) : Bool :=
  decide (a.year < b.year ∨ (a.year = b.year ∧ (a.month < b.month ∨ (a.month = b.month ∧
    (a.day < b.day ∨ (a.day = b.day ∧ a.ms ≤ b.ms))))))

end JSDate

/-- Lines 16-27. -/
def getPayPeriodStart (date : JSDate) : JSDate :=
  let d := date
  let day := d.day
  if day ≥ 25 then
    JSDate.construct d.year d.month 25 (by decide)
  else
    JSDate.construct d.year (d.month - 1) 25 (by decide)

/-- Lines 29-33. -/
def getPayPeriodEnd (payPeriodStart : JSDate) : JSDate :=
  let start := payPeriodStart
  JSDate.construct start.year (start.month + 1) 24 (by decide)

/-- Lines 56-67. -/
def isTransactionInPayPeriod (transactionDate payPeriodStart : JSDate) : Bool :=
  let txDate := transactionDate.startOfDay
  let periodStart := payPeriodStart.startOfDay
  let periodEnd := (getPayPeriodEnd payPeriodStart).endOfDay
  periodStart.le txDate && txDate.le periodEnd

/-- Lines 69-72. -/
def getPreviousPayPeriod (currentPayPeriodStart : JSDate) : JSDate :=
  let current := currentPayPeriodStart
  JSDate.construct current.year (current.month - 1) 25 (by decide)

/-- Lines 74-77. -/
def getNextPayPeriod (currentPayPeriodStart : JSDate) : JSDate :=
  let current := currentPayPeriodStart
  JSDate.construct current.year (current.month + 1) 25 (by decide)

/-- A period start: the 25th of some month at local midnight, as the
constructor calls of the script build it. -/
def IsPeriodStart (p : JSDate) : Prop :=
  p.day = 25 ∧ p.ms = 0

instance (p : JSDate) : Decidable (IsPeriodStart p) := by
  unfold IsPeriodStart
  infer_instance

/-- The two record events of the scenario: Paycheck 1000 by the form, then
Groceries 50 by the card of Food. -/
def scenarioOps : List RecordOp :=
  [.form "Paycheck" (some 1000) "income" "Salary" 1706176800000 "2024-01-25T10:00:00.000Z",
   .card "Groceries" (some 50) "Food" 1706263200000 "2024-01-26T10:00:00.000Z"]

/-- The date 2024-01-25 at 13:45 local time. -/
def jan25Afternoon : JSDate :=
  { year := 2024, month := 0, day := 25, ms := 49500000,
    month_lt := by decide, day_pos := by decide, day_le := by decide, ms_lt := by decide }

/-- The date 2024-01-10 at 09:00 local time. -/
def jan10Morning : JSDate :=
  { year := 2024, month := 0, day := 10, ms := 32400000,
    month_lt := by decide, day_pos := by decide, day_le := by decide, ms_lt := by decide }

/-- The date 2023-12-25 at local midnight. -/
def dec25 : JSDate :=
  { year := 2023, month := 11, day := 25, ms := 0,
    month_lt := by decide, day_pos := by decide, day_le := by decide, ms_lt := by decide }

/-! ## Deleting and editing -/

/-- The call splice(index, 1) on a list: a negative index counts from the end
(and stops at the first position), an index from the length on removes
nothing. -/
def splice1 {α : Type} (xs : List α) (index : Int) : List α :=
  let len : Int := xs.length
  let actualStart : Int := if index < 0 then max (len + index) 0 else min index len
  xs.eraseIdx actualStart.toNat

/-- Lines 319-325.  The arguments are the index written in the button and the
answer to the confirm dialog. -/
def deleteTransaction (s : Ledger) (index : Int) (confirmed : Bool) : Outcome :=
  if confirmed then
    { ledger := { s with transactions := splice1 s.transactions index }, alert := none }
  else
    { ledger := s, alert := none }

/-- Lines 679-700.  The arguments are the id written in the button and the
answer to the confirm dialog; the category is used for rendering only. -/
def deleteExpense (s : Ledger) (transactionId : Int) (confirmed : Bool) : Outcome :=
  if !confirmed then
    { ledger := s, alert := none }
  else
    match s.transactions.findIdx? (fun t => t.id == transactionId) with
    | none => { ledger := s, alert := some .transactionNotFound }
    | some transactionIndex =>
      { ledger := { s with transactions := splice1 s.transactions transactionIndex },
        alert := none }

/-- The two assignments of lines 656-657 on the transaction that find returns:
the first one with the id.  When no transaction has the id, find returns
undefined, the first assignment throws, and nothing is changed. -/
def assignFirst (ts : List Transaction) (transactionId : Int) (newDescription : String)
    (newAmount : ℚ) : List Transaction :=
  match ts with
  | [] => []
  | t :: rest =>
    if t.id == transactionId then
      { t with description := newDescription, amount := newAmount } :: rest
    else
      t :: assignFirst rest transactionId newDescription newAmount

/-- Lines 621-666.  The arguments are the id written in the button, the
trimmed value of the description field and the value of the amount field
after parseFloat (an empty amount field gives NaN, so that the test on the
text of the field adds nothing).  The original description and amount that
the button passes are not used by the script. -/
def saveExpenseEdit (s : Ledger) (transactionId : Int) (newDescription : String)
    (newAmount : Option ℚ) : Outcome :=
  if newDescription == "" then
    { ledger := s, alert := some .enterValidDescription }
  else
    match newAmount with
    | none => { ledger := s, alert := some .enterValidAmount }
    | some amount =>
      if amount == 0 || amount ≤ 0 then
        { ledger := s, alert := some .enterValidAmount }
      else
        let currentIncome := sumAmounts (s.transactions.filter (fun t => t.type == "income"))
        let currentExpenses := sumAmounts
          (s.transactions.filter (fun t => t.type == "expense" && t.id != transactionId))
        let availableBalance := currentIncome - currentExpenses
        if amount > availableBalance then
          { ledger := s, alert := some (.insufficientFunds availableBalance) }
        else
          let edited := assignFirst s.transactions transactionId newDescription amount
          { ledger := { s with transactions := edited }, alert := none }

/-- The predicate of the data model: every stored amount is positive and
every stored expense has a category. -/
def LedgerInvariant (s : Ledger) : Prop :=
  ∀ t ∈ s.transactions, 0 < t.amount ∧ (t.type = "expense" → t.category ≠ "")

instance (s : Ledger) : Decidable (LedgerInvariant s) := by
  unfold LedgerInvariant
  infer_instance

/-- A bundle with one element that passes the validation of the import: an
expense of amount -5 without a category. -/
def refundEntry : JSON :=
  .obj [("id", .num (.finite 3)), ("description", .str "Refund"),
        ("amount", .num (.finite (-5))), ("type", .str "expense"), ("category", .str ""),
        ("date", .str "2024-02-03T08:00:00.000Z")]

/-- A bundle with the refund element and the offset 0. -/
def refundBundle : JSON :=
  .obj [("exportVersion", .num (.finite 1)),
        ("exportedAt", .str "2024-02-04T00:00:00.000Z"),
        ("transactions", .arr [refundEntry]),
        ("balanceOffset", .num (.finite 0))]

/-- A bundle without transactions and with the offset 7. -/
def offsetBundle : JSON :=
  .obj [("exportVersion", .num (.finite 1)),
        ("exportedAt", .str "2024-02-04T00:00:00.000Z"),
        ("transactions", .arr []),
        ("balanceOffset", .num (.finite 7))]

/-! ### The invariant on the state in memory -/

/-- The amount is a number above 0. -/
def amountPositive : Option JSON → Bool
  | some (.num (.finite q)) => decide (0 < q)
  | some (.num .posInf) => true
  | _ => false

/-- The category is a text that is not empty. -/
def nonEmptyText : Option JSON → Bool
  | some (.str s) => s != ""
  | _ => false

/-- The element has a positive amount and, when it is an expense, a
category. -/
def entryInvariant (t : JSON) : Bool :=
  amountPositive (t.get "amount") &&
    (!strictEqString (t.get "type") "expense" || nonEmptyText (t.get "category"))

/-- The predicate of the data model on the state in memory. -/
def RawInvariant (r : RawLedger) : Prop :=
  ∀ t ∈ r.transactions, entryInvariant t = true

/-! ### The edit as the specification words it -/

/-- The sum of all income amounts minus the sum of the amounts of all expenses
whose id is not the given one, over the whole list and without the offset. -/
def availableForEdit (ts : List Transaction) (transactionId : Int) : ℚ :=
  ((ts.filter (fun t => t.type == "income")).map Transaction.amount).sum -
    ((ts.filter (fun t => t.type == "expense" && t.id != transactionId)).map
      Transaction.amount).sum

/-- The list without the edited transaction: the first one with the id. -/
def withoutEdited (ts : List Transaction) (transactionId : Int) : List Transaction :=
  match ts with
  | [] => []
  | t :: rest => if t.id == transactionId then rest else t :: withoutEdited rest transactionId

/-- The sum of all income amounts minus the sum of the amounts of all expenses
other than the edited one, over the whole list and without the offset. -/
def availableOtherThanEdited (ts : List Transaction) (transactionId : Int) : ℚ :=
  ((ts.filter (fun t => t.type == "income")).map Transaction.amount).sum -
    (((withoutEdited ts transactionId).filter (fun t => t.type == "expense")).map
      Transaction.amount).sum

/-- A ledger in which two expenses share the id 1. -/
def sharedIdLedger : Ledger :=
  { transactions :=
      [ { id := 1, description := "Coffee", amount := 10, type := "expense",
          category := "Food", date := "2024-02-01T08:00:00.000Z" },
        { id := 1, description := "Tea", amount := 10, type := "expense",
          category := "Food", date := "2024-02-01T08:00:00.000Z" },
        { id := 2, description := "Paycheck", amount := 15, type := "income",
          category := "Salary", date := "2024-01-25T10:00:00.000Z" } ],
    balanceOffset := 0 }

/-- The ledger sharedIdLedger after the first expense with the id 1 was edited
to Lunch 12. -/
def sharedIdLedgerEdited : Ledger :=
  { transactions :=
      [ { id := 1, description := "Lunch", amount := 12, type := "expense",
          category := "Food", date := "2024-02-01T08:00:00.000Z" },
        { id := 1, description := "Tea", amount := 10, type := "expense",
          category := "Food", date := "2024-02-01T08:00:00.000Z" },
        { id := 2, description := "Paycheck", amount := 15, type := "income",
          category := "Salary", date := "2024-01-25T10:00:00.000Z" } ],
    balanceOffset := 0 }

/-! ## Category history

The stored date of a transaction is a text; the script reads it with the Date
constructor, whose result depends on the zone of the platform.  The reading is
an argument of the functions below: parseDate gives the Date in local time, or
none for an Invalid Date. -/

/-- The comparison a < b of two Dates, on the same order as JSDate.le. -/
def JSDate.lt (a b : JSDate) : Bool :=
  decide (a.year < b.year ∨ (a.year = b.year ∧ (a.month < b.month ∨ (a.month = b.month ∧
    (a.day < b.day ∨ (a.day = b.day ∧ a.ms < b.ms))))))

/-- The call isTransactionInPayPeriod(t.date, payPeriodStart) on a stored
date: every comparison with an Invalid Date is false. -/
def isDateTextInPayPeriod (parseDate : String → Option JSDate) (date : String)
    (payPeriodStart : JSDate) : Bool :=
  match parseDate date with
  | some d => isTransactionInPayPeriod d payPeriodStart
  | none => false

/-- The test new Date(t.date) < periodStart of lines 513 and 518. -/
def isDateTextBefore (parseDate : String → Option JSDate) (date : String)
    (periodStart : JSDate) : Bool :=
  match parseDate date with
  | some d => d.lt periodStart
  | none => false

/-- Lines 507-523. -/
def getInitialBalanceForPayPeriod (parseDate : String → Option JSDate) (s : Ledger)
    (payPeriodStart : JSDate) : ℚ :=
  let periodStart := payPeriodStart.startOfDay
  let incomeBeforePeriod := sumAmounts (s.transactions.filter
    (fun t => t.type == "income" && isDateTextBefore parseDate t.date periodStart))
  let expensesBeforePeriod := sumAmounts (s.transactions.filter
    (fun t => t.type == "expense" && isDateTextBefore parseDate t.date periodStart))
  incomeBeforePeriod - expensesBeforePeriod

/-- What updateHistoryForPayPeriod renders: the history items, and the total
and the percentage of the line Total Spent. -/
structure HistoryReport where
  entries : List Transaction
  total : ℚ
  totalPercentage : ℚ
  deriving DecidableEq

/-- Lines 438-504, with the displayed period (the variable
currentDisplayPayPeriod) as an argument. -/
def updateHistoryForPayPeriod (parseDate : String → Option JSDate) (s : Ledger)
    (currentDisplayPayPeriod : JSDate) (category : String) : HistoryReport :=
  let categoryTransactions := s.transactions.filter (fun t =>
    if t.type != "expense" || t.category != category then false
    else if includes t.description "Balance Adjustment" then false
    else if includes t.description "Manual Balance Correction" then false
    else isDateTextInPayPeriod parseDate t.date currentDisplayPayPeriod)
  if categoryTransactions.length == 0 then
    { entries := categoryTransactions, total := 0, totalPercentage := 0 }
  else
    let total := sumAmounts categoryTransactions
    let initialBalance := getInitialBalanceForPayPeriod parseDate s currentDisplayPayPeriod
    let totalPercentage : ℚ :=
      if initialBalance > 0 then
        categoryTransactions.foldl (fun sum t => sum + (t.amount / initialBalance * 100)) 0
      else 0
    { entries := categoryTransactions, total := total, totalPercentage := totalPercentage }

/-- The value of a text of decimal digits. -/
def readDigits (cs : List Char) : Option Nat :=
  cs.foldl
    (fun acc c =>
      match acc with
      | none => none
      | some n => if c.isDigit then some (10 * n + (c.toNat - 48)) else none)
    (some 0)

/-- One reading of date texts: the texts of the shape that toISOString writes
(YYYY-MM-DDTHH:mm:ss.sssZ), read in the zone UTC; none for any other text. -/
def parseInstantUTC (text : String) : Option JSDate :=
  match text.toList with
  | [y1, y2, y3, y4, '-', m1, m2, '-', d1, d2, 'T', h1, h2, ':', n1, n2, ':', s1, s2, '.',
      f1, f2, f3, 'Z'] =>
    match readDigits [y1, y2, y3, y4], readDigits [m1, m2], readDigits [d1, d2],
      readDigits [h1, h2], readDigits [n1, n2], readDigits [s1, s2], readDigits [f1, f2, f3] with
    | some y, some m, some d, some h, some n, some sec, some f =>
      if hv : 1 ≤ m ∧ m ≤ 12 ∧ 1 ≤ d ∧ d ≤ 31 ∧ h < 24 ∧ n < 60 ∧ sec < 60 ∧ f < 1000 then
        some
          { year := y
            month := m - 1
            day := d
            ms := ((h * 60 + n) * 60 + sec) * 1000 + f
            month_lt := by omega
            day_pos := by omega
            day_le := by omega
            ms_lt := by omega }
      else none
    | _, _, _, _, _, _, _ => none
  | _ => none

/-- The date 2024-01-26 at 10:00 local time. -/
def jan26Morning : JSDate :=
  { year := 2024, month := 0, day := 26, ms := 36000000,
    month_lt := by decide, day_pos := by decide, day_le := by decide, ms_lt := by decide }

/-- The date 2024-01-25 at local midnight. -/
def jan25 : JSDate :=
  { year := 2024, month := 0, day := 25, ms := 0,
    month_lt := by decide, day_pos := by decide, day_le := by decide, ms_lt := by decide }

/-! ### The report as the specification words it -/

/-- The stored date is strictly before the period start. -/
def datedBefore (parseDate : String → Option JSDate) (t : Transaction) (p : JSDate) : Bool :=
  match parseDate t.date with
  | some d => d.lt p
  | none => false

/-- The sum of the income amounts dated strictly before the period start minus
the sum of the expense amounts dated strictly before it, over the whole
list. -/
def initialBalanceBefore (parseDate : String → Option JSDate) (ts : List Transaction)
    (p : JSDate) : ℚ :=
  ((ts.filter (fun t => t.type == "income" && datedBefore parseDate t p)).map
      Transaction.amount).sum -
    ((ts.filter (fun t => t.type == "expense" && datedBefore parseDate t p)).map
      Transaction.amount).sum

/-- The transactions the report is about: the expenses of the category without
a sentinel in the description and with a date in the period. -/
def matchesReport (parseDate : String → Option JSDate) (category : String) (p : JSDate)
    (t : Transaction) : Bool :=
  t.type == "expense" && t.category == category && notAdjustment t &&
    isDateTextInPayPeriod parseDate t.date p

/-- The date 0050-01-26 at 12:00 local time. -/
def year50Jan26 : JSDate :=
  { year := 50, month := 0, day := 26, ms := 43200000,
    month_lt := by decide, day_pos := by decide, day_le := by decide, ms_lt := by decide }

/-- The date 0050-03-10 at 12:00 local time. -/
def year50Mar10 : JSDate :=
  { year := 50, month := 2, day := 10, ms := 43200000,
    month_lt := by decide, day_pos := by decide, day_le := by decide, ms_lt := by decide }

/-- The date 0050-01-25 at 13:45 local time. -/
def year50Jan25Afternoon : JSDate :=
  { year := 50, month := 0, day := 25, ms := 49500000,
    month_lt := by decide, day_pos := by decide, day_le := by decide, ms_lt := by decide }

/-- The date 0100-01-10 at 09:00 local time. -/
def year100Jan10 : JSDate :=
  { year := 100, month := 0, day := 10, ms := 32400000,
    month_lt := by decide, day_pos := by decide, day_le := by decide, ms_lt := by decide }

/-- The 25th of a month at local midnight. -/
def the25th (year : Int) (month : Nat) (h : month < 12) : JSDate :=
  { year := year, month := month, day := 25, ms := 0,
    month_lt := h, day_pos := by decide, day_le := by decide, ms_lt := by decide }

/-! ## Theorems -/

/-- C1: for every ledger and every asserted balance x, the balance that
updateSummary computes after editBalance was answered with x is x. -/
theorem editBalance_then_balance (s : Ledger) (x : ℚ) :
    (updateSummary (editBalance s (.entered (some x))).ledger).balance = x := by
  simp only [editBalance]
  split
  · simp only [updateSummary]
    ring
  · rename_i h
    simp only [updateSummary]
    have h0 := not_not.mp h
    linarith

/-! ### Sums -/

theorem foldl_add_amount (ts : List Transaction) (a : ℚ) :
    ts.foldl (fun sum t => sum + t.amount) a = a + (ts.map Transaction.amount).sum := by
  induction ts generalizing a with
  | nil => simp
  | cons t ts ih => simp only [List.foldl_cons, ih, List.map_cons, List.sum_cons]; ring

theorem sumAmounts_eq_sum (ts : List Transaction) :
    sumAmounts ts = (ts.map Transaction.amount).sum := by
  simp [sumAmounts, foldl_add_amount]

theorem sumAmounts_cons (t : Transaction) (ts : List Transaction) :
    sumAmounts (t :: ts) = t.amount + sumAmounts ts := by
  simp [sumAmounts_eq_sum]

theorem sumAmounts_nil : sumAmounts [] = 0 := rfl

/-- The balance of the ledger with one more transaction on top. -/
theorem balance_cons (t : Transaction) (ts : List Transaction) (b : ℚ) :
    (updateSummary { transactions := t :: ts, balanceOffset := b }).balance =
      (updateSummary { transactions := ts, balanceOffset := b }).balance
        + (if notAdjustment t && t.type == "income" then t.amount else 0)
        - (if notAdjustment t && t.type == "expense" then t.amount else 0) := by
  simp only [updateSummary, List.filter_cons]
  by_cases h1 : notAdjustment t = true <;> by_cases h2 : (t.type == "income") = true <;>
    by_cases h3 : (t.type == "expense") = true <;>
    simp [h1, h2, h3, sumAmounts_cons] <;> ring

/-! ### Recording -/

/-- What one recorded event adds to the closed form. -/
theorem closedFormBalance_cons (op : RecordOp) (ops : List RecordOp) (b : ℚ) :
    closedFormBalance (op :: ops) b =
      closedFormBalance ops
        (b + (if (!includes op.description "Balance Adjustment" &&
                !includes op.description "Manual Balance Correction") && op.type == "income"
              then op.amount else 0)
           - (if (!includes op.description "Balance Adjustment" &&
                !includes op.description "Manual Balance Correction") && op.type == "expense"
              then op.amount else 0)) := by
  simp only [closedFormBalance, List.filter_cons]
  by_cases h1 : (!includes op.description "Balance Adjustment" &&
      !includes op.description "Manual Balance Correction") = true <;>
    by_cases h2 : (op.type == "income") = true <;>
    by_cases h3 : (op.type == "expense") = true <;>
    simp [h1, h2, h3] <;> ring

/-- A successful event puts one transaction on top of the list, made of the
description, amount and type it asked for, and keeps the offset. -/
theorem run_success (s : Ledger) (op : RecordOp) (h : (op.run s).alert = none) :
    ∃ t : Transaction, t.description = op.description ∧ t.amount = op.amount ∧
      t.type = op.type ∧
      (op.run s).ledger = { transactions := t :: s.transactions,
                            balanceOffset := s.balanceOffset } := by
  cases op with
  | form description amount type category now isoNow =>
    simp only [RecordOp.run, addTransaction] at h ⊢
    split at h
    · simp at h
    · split at h
      · simp at h
      · rename_i h1 h2
        simp only [h1, h2]
        exact ⟨_, rfl, rfl, rfl, rfl⟩
  | card expenseName expenseAmount category now isoNow =>
    simp only [RecordOp.run, addExpense] at h ⊢
    split at h
    · simp at h
    · rename_i h1
      cases expenseAmount with
      | none => simp at h
      | some amount =>
        simp only at h
        split at h
        · simp at h
        · split at h
          · simp at h
          · rename_i h2 h3
            simp only [h1, h2, h3]
            exact ⟨_, rfl, rfl, rfl, rfl⟩

/-- The balance after a run of successful events, from any ledger. -/
theorem recordAll_balance (ops : List RecordOp) :
    ∀ (s s' : Ledger), recordAll s ops = some s' →
      (updateSummary s').balance = closedFormBalance ops (updateSummary s).balance := by
  induction ops with
  | nil =>
    intro s s' h
    simp only [recordAll, Option.some.injEq] at h
    subst h
    simp [closedFormBalance]
  | cons op ops ih =>
    intro s s' h
    simp only [recordAll] at h
    split at h
    · rename_i hok
      rw [ih _ _ h, closedFormBalance_cons]
      obtain ⟨t, hd, ha, ht, hl⟩ := run_success s op hok
      rw [hl, balance_cons]
      simp only [notAdjustment, hd, ha, ht]
    · simp at h

/-- C2: from the empty ledger with offset b, after any sequence of successful
record events (form submits and card clicks) the balance of updateSummary is
the closed form over the recorded events: income minus expenses over the
descriptions without a sentinel, plus b.  Recording income 1000 gives the
balance 1000, and expense 50 after it (by the form or by a card) gives 950. -/
theorem recordAll_balance_closed_form :
    (∀ (b : ℚ) (ops : List RecordOp) (s : Ledger),
      recordAll { transactions := [], balanceOffset := b } ops = some s →
        (updateSummary s).balance = closedFormBalance ops b) ∧
    (∀ (now1 now2 : Int) (iso1 iso2 : String),
      (recordAll { transactions := [], balanceOffset := 0 }
          [.form "Paycheck" (some 1000) "income" "Salary" now1 iso1]).map
        (fun s => (updateSummary s).balance) = some 1000 ∧
      (recordAll { transactions := [], balanceOffset := 0 }
          [.form "Paycheck" (some 1000) "income" "Salary" now1 iso1,
           .form "Groceries" (some 50) "expense" "Food" now2 iso2]).map
        (fun s => (updateSummary s).balance) = some 950 ∧
      (recordAll { transactions := [], balanceOffset := 0 }
          [.form "Paycheck" (some 1000) "income" "Salary" now1 iso1,
           .card "Groceries" (some 50) "Food" now2 iso2]).map
        (fun s => (updateSummary s).balance) = some 950) := by
  have e1 : includes "Paycheck" "Balance Adjustment" = false := by decide
  have e2 : includes "Paycheck" "Manual Balance Correction" = false := by decide
  have e3 : includes "Groceries" "Balance Adjustment" = false := by decide
  have e4 : includes "Groceries" "Manual Balance Correction" = false := by decide
  have e5 : ("income" == "expense") = false := by decide
  have e6 : ("expense" == "income") = false := by decide
  have e7 : ("Paycheck" == "") = false := by decide
  have e8 : ("Groceries" == "") = false := by decide
  have e9 : ("Salary" == "") = false := by decide
  have e10 : ("Food" == "") = false := by decide
  have e11 : ("income" == "") = false := by decide
  have e12 : ("expense" == "") = false := by decide
  refine ⟨?_, ?_⟩
  · intro b ops s h
    rw [recordAll_balance ops _ s h]
    simp [updateSummary, sumAmounts]
  · intro now1 now2 iso1 iso2
    refine ⟨?_, ?_, ?_⟩ <;>
      simp [recordAll, RecordOp.run, addTransaction, addExpense, truthyNumber, updateSummary,
        notAdjustment, sumAmounts, e1, e2, e3, e4, e5, e6, e7, e8, e9, e10, e11, e12] <;>
      norm_num [List.filter_cons, e1, e2, e3, e4, e5, e6]

/-- Witness of C2: the two events of the scenario, from the empty ledger. -/
theorem recordAll_balance_closed_form_witness :
    recordAll { transactions := [], balanceOffset := 0 } scenarioOps = some scenarioLedger ∧
      (updateSummary scenarioLedger).balance = closedFormBalance scenarioOps 0 :=
  have h : recordAll { transactions := [], balanceOffset := 0 } scenarioOps =
      some scenarioLedger := by
    have e7 : ("Paycheck" == "") = false := by decide
    have e8 : ("Groceries" == "") = false := by decide
    have e9 : ("Salary" == "") = false := by decide
    have e11 : ("income" == "") = false := by decide
    have e1 : includes "Paycheck" "Balance Adjustment" = false := by decide
    have e2 : includes "Paycheck" "Manual Balance Correction" = false := by decide
    have e5 : ("income" == "expense") = false := by decide
    simp [recordAll, scenarioOps, RecordOp.run, addTransaction, addExpense, truthyNumber,
      notAdjustment, sumAmounts, scenarioLedger, List.filter_cons, e1, e2, e5, e7, e8, e9, e11]
    norm_num
  ⟨h, recordAll_balance_closed_form.1 0 scenarioOps scenarioLedger h⟩

/-- The card handler refuses an expense above the balance: with a name and a
positive amount, the alert is the one of insufficient funds and the ledger is
as before. -/
theorem addExpense_insufficient (s : Ledger) (expenseName category isoNow : String)
    (amount : ℚ) (now : Int) (hname : expenseName ≠ "") (hpos : 0 < amount)
    (hover : amount > (updateSummary s).balance) :
    addExpense s expenseName (some amount) category now isoNow =
      { ledger := s, alert := some (.insufficientFunds (updateSummary s).balance) } := by
  have h1 : (expenseName == "") = false := by simpa using hname
  have h2 : ¬ amount ≤ 0 := not_le.mpr hpos
  have h3 : amount ≠ 0 := ne_of_gt hpos
  simp only [updateSummary] at hover
  simp only [addExpense, h1, updateSummary]
  have h4 : (amount == 0) = false := by simpa using h3
  simp only [h4, h2, Bool.false_eq_true, decide_False, Bool.or_self, if_false,
    hover, if_true]

/-- C3, the code at the failing input: with the balance at 950, the card
handler refuses Rent 2000 with the alert of insufficient funds and leaves the
ledger as it is, while the form records the same expense without any alert. -/
theorem addTransaction_records_overdraft :
    (updateSummary scenarioLedger).balance = 950 ∧
    addExpense scenarioLedger "Rent" (some 2000) "Housing" 1706349600000
        "2024-01-27T10:00:00.000Z" =
      { ledger := scenarioLedger, alert := some (.insufficientFunds 950) } ∧
    addTransaction scenarioLedger "Rent" (some 2000) "expense" "Housing" 1706349600000
        "2024-01-27T10:00:00.000Z" =
      { ledger := { transactions := rentTransaction :: scenarioLedger.transactions,
                    balanceOffset := 0 },
        alert := none } := by
  have e1 : includes "Paycheck" "Balance Adjustment" = false := by decide
  have e2 : includes "Paycheck" "Manual Balance Correction" = false := by decide
  have e3 : includes "Groceries" "Balance Adjustment" = false := by decide
  have e4 : includes "Groceries" "Manual Balance Correction" = false := by decide
  have e5 : ("income" == "expense") = false := by decide
  have e6 : ("expense" == "income") = false := by decide
  have hb : (updateSummary scenarioLedger).balance = 950 := by
    simp [updateSummary, scenarioLedger, notAdjustment, sumAmounts, List.filter_cons,
      e1, e2, e3, e4, e5, e6]
    norm_num
  refine ⟨hb, ?_, ?_⟩
  · rw [addExpense_insufficient scenarioLedger "Rent" "Housing" _ 2000 _ (by decide)
      (by norm_num) (by rw [hb]; norm_num), hb]
  · have e7 : ("Rent" == "") = false := by decide
    have e8 : ("expense" == "") = false := by decide
    have e9 : ("Housing" == "") = false := by decide
    simp [addTransaction, truthyNumber, e7, e8, e9, rentTransaction, scenarioLedger]

/-! ### Import validation -/

theorem isObject_eq (t : JSON) : isObject t = (t.typeofIsObject && !t.isNull) := by
  cases t <;> rfl

theorem hasNumericAmount_eq (t : JSON) :
    hasNumericAmount t = (typeofIsNumber (t.get "amount") && !isNaN (t.get "amount")) := by
  unfold hasNumericAmount
  cases t.get "amount" with
  | none => rfl
  | some v =>
    cases v with
    | num x => cases x <;> rfl
    | _ => rfl

theorem hasKnownType_eq (t : JSON) :
    hasKnownType t = (truthyProp (t.get "type") &&
      (strictEqString (t.get "type") "income" || strictEqString (t.get "type") "expense")) := by
  unfold hasKnownType
  cases t.get "type" with
  | none => rfl
  | some v =>
    cases v with
    | str s =>
      simp only [truthyProp, JSON.truthy, strictEqString]
      by_cases h1 : s = "income"
      · subst h1; decide
      · by_cases h2 : s = "expense"
        · subst h2; decide
        · simp [h1, h2]
    | _ => simp [truthyProp, strictEqString]

theorem hasDate_eq (t : JSON) : hasDate t = truthyProp (t.get "date") := by
  unfold hasDate truthyProp
  cases t.get "date" <;> rfl

/-- The callback as a function of the four checks. -/
theorem checkEntry_eq (t : JSON) :
    checkEntry t =
      if !isObject t then .error "Invalid transaction entry"
      else if !hasNumericAmount t then .error "Transaction amount invalid"
      else if !hasKnownType t then .error "Transaction type invalid"
      else if !hasDate t then .error "Transaction date missing"
      else .ok () := by
  rw [isObject_eq, hasNumericAmount_eq, hasKnownType_eq, hasDate_eq]
  unfold checkEntry
  cases t.typeofIsObject <;> cases t.isNull <;> cases typeofIsNumber (t.get "amount") <;>
    cases isNaN (t.get "amount") <;> cases truthyProp (t.get "type") <;>
    cases strictEqString (t.get "type") "income" <;>
    cases strictEqString (t.get "type") "expense" <;>
    cases truthyProp (t.get "date") <;> rfl

theorem checkEntry_ok_iff (t : JSON) : checkEntry t = .ok () ↔ entryAcceptable t = true := by
  rw [checkEntry_eq]
  simp only [entryAcceptable, entryChecks, List.all_cons, List.all_nil]
  cases isObject t <;> cases hasNumericAmount t <;> cases hasKnownType t <;>
    cases hasDate t <;> simp

theorem checkEntry_error (t : JSON) (r : String) (h : checkEntry t = .error r) :
    entryAcceptable t = false ∧ firstFailedCheck t = some r := by
  rw [checkEntry_eq] at h
  simp only [entryAcceptable, firstFailedCheck, entryChecks, List.all_cons, List.all_nil,
    List.find?_cons, List.find?_nil]
  revert h
  cases isObject t <;> cases hasNumericAmount t <;> cases hasKnownType t <;>
    cases hasDate t <;> simp

theorem forEachEntry_ok_iff (ts : List JSON) :
    forEachEntry ts = .ok () ↔ ts.all entryAcceptable = true := by
  induction ts with
  | nil => simp [forEachEntry]
  | cons t ts ih =>
    simp only [forEachEntry, List.all_cons, Bool.and_eq_true]
    cases h : checkEntry t with
    | error m =>
      have := (checkEntry_error t m h).1
      simp [this]
    | ok u =>
      have := (checkEntry_ok_iff t).mp h
      simp [this, ih]

theorem forEachEntry_error (ts : List JSON) (r : String) (h : forEachEntry ts = .error r) :
    ∃ before t after, ts = before ++ t :: after ∧
      (∀ u ∈ before, entryAcceptable u = true) ∧
      entryAcceptable t = false ∧ firstFailedCheck t = some r := by
  induction ts with
  | nil => simp [forEachEntry] at h
  | cons t ts ih =>
    simp only [forEachEntry] at h
    cases hc : checkEntry t with
    | error m =>
      rw [hc] at h
      simp only [Except.error.injEq] at h
      subst h
      exact ⟨[], t, ts, rfl, by simp, checkEntry_error t m hc⟩
    | ok u =>
      rw [hc] at h
      obtain ⟨before, v, after, e, hb, hv⟩ := ih h
      refine ⟨t :: before, v, after, by simp [e], ?_, hv⟩
      intro w hw
      rcases List.mem_cons.mp hw with rfl | hw
      · exact (checkEntry_ok_iff _).mp hc
      · exact hb w hw

theorem validateImport_ok_iff (parsed : JSON) :
    (∃ ts, validateImport parsed = .ok ts) ↔ bundleAcceptable parsed = true := by
  unfold validateImport bundleAcceptable
  cases parsed with
  | obj members =>
    simp only [JSON.truthy, JSON.typeofIsObject, isObject, Bool.not_true, Bool.or_self,
      Bool.false_eq_true, if_false, Bool.true_and]
    cases hg : (JSON.obj members).get "transactions" with
    | none => simp
    | some v =>
      cases v with
      | arr ts =>
        simp only
        cases hf : forEachEntry ts with
        | error m =>
          have : ¬ (ts.all entryAcceptable = true) := by
            rw [← forEachEntry_ok_iff, hf]; simp
          simp [this]
        | ok u =>
          have : ts.all entryAcceptable = true := (forEachEntry_ok_iff ts).mp hf
          simp [this]
      | _ => simp
  | arr items => simp [JSON.truthy, JSON.typeofIsObject, isObject, JSON.get]
  | _ => simp [JSON.truthy, JSON.typeofIsObject, isObject]

theorem validateImport_error (parsed : JSON) (r : String)
    (h : validateImport parsed = .error r) :
    (isObject parsed = false ∧ r = "Invalid JSON structure") ∨
    (isObject parsed = true ∧ (∀ ts, parsed.get "transactions" ≠ some (.arr ts)) ∧
      r = "Missing transactions array") ∨
    (∃ before t after, parsed.get "transactions" = some (.arr (before ++ t :: after)) ∧
      (∀ u ∈ before, entryAcceptable u = true) ∧
      entryAcceptable t = false ∧ firstFailedCheck t = some r) := by
  unfold validateImport at h
  cases parsed with
  | obj members =>
    simp only [JSON.truthy, JSON.typeofIsObject, Bool.not_true, Bool.or_self,
      Bool.false_eq_true, if_false] at h
    right
    cases hg : (JSON.obj members).get "transactions" with
    | none =>
      rw [hg] at h
      simp only [Except.error.injEq] at h
      exact Or.inl ⟨rfl, by simp, h.symm⟩
    | some v =>
      rw [hg] at h
      cases v with
      | arr ts =>
        simp only at h
        cases hf : forEachEntry ts with
        | error m =>
          rw [hf] at h
          simp only [Except.error.injEq] at h
          subst h
          obtain ⟨before, t, after, e, hb, ht⟩ := forEachEntry_error ts m hf
          exact Or.inr ⟨before, t, after, by rw [e], hb, ht⟩
        | ok u =>
          rw [hf] at h
          simp at h
      | null => simp only [Except.error.injEq] at h; exact Or.inl ⟨rfl, by simp, h.symm⟩
      | bool b => simp only [Except.error.injEq] at h; exact Or.inl ⟨rfl, by simp, h.symm⟩
      | num q => simp only [Except.error.injEq] at h; exact Or.inl ⟨rfl, by simp, h.symm⟩
      | str x => simp only [Except.error.injEq] at h; exact Or.inl ⟨rfl, by simp, h.symm⟩
      | obj ms => simp only [Except.error.injEq] at h; exact Or.inl ⟨rfl, by simp, h.symm⟩
  | arr items =>
    simp only [JSON.truthy, JSON.typeofIsObject, Bool.not_true, Bool.or_self,
      Bool.false_eq_true, if_false, JSON.get, Except.error.injEq] at h
    exact Or.inr (Or.inl ⟨rfl, by simp [JSON.get], h.symm⟩)
  | null => left; simp_all [JSON.truthy, JSON.typeofIsObject, isObject]
  | bool b => left; simp_all [JSON.truthy, JSON.typeofIsObject, isObject]
  | num q => left; simp_all [JSON.truthy, JSON.typeofIsObject, isObject]
  | str x => left; simp_all [JSON.truthy, JSON.typeofIsObject, isObject]

theorem validateImport_ok_transactions (parsed : JSON) (ts : List JSON)
    (h : validateImport parsed = .ok ts) : parsed.get "transactions" = some (.arr ts) := by
  unfold validateImport at h
  split at h
  · simp at h
  · split at h
    · rename_i ts0 hg
      split at h
      · simp at h
      · simp only [Except.ok.injEq] at h
        subst h
        exact hg
    · simp at h

/-- When the validation throws, the import leaves the state it found and
reports the message. -/
theorem import_rejected (hasTransactionsList : Bool) (s : RawLedger) (parsed : JSON)
    (m : String) (h : validateImport parsed = .error m) :
    importDataFromFile hasTransactionsList s parsed = { state := s, alert := .failed m } := by
  simp only [importDataFromFile, h]

/-- When the validation passes, the import assigns the array and the offset of
the bundle, whatever the state was and whatever the alert is. -/
theorem import_assigned (hasTransactionsList : Bool) (s : RawLedger) (parsed : JSON)
    (ts : List JSON) (h : validateImport parsed = .ok ts) :
    (importDataFromFile hasTransactionsList s parsed).state =
        { transactions := ts, balanceOffset := importedOffset parsed } ∧
      (importDataFromFile hasTransactionsList s parsed).alert =
        if updateUIThrows hasTransactionsList ts then .failedRendering else .successful := by
  simp only [importDataFromFile, h]
  split <;> exact ⟨rfl, rfl⟩

/-- The import reports a message of the validation exactly when the
validation throws it. -/
theorem import_alert_failed_iff (hasTransactionsList : Bool) (s : RawLedger) (parsed : JSON)
    (m : String) :
    (importDataFromFile hasTransactionsList s parsed).alert = .failed m ↔
      validateImport parsed = .error m := by
  cases hv : validateImport parsed with
  | error m0 =>
    rw [import_rejected hasTransactionsList s parsed m0 hv]
    simp
  | ok ts =>
    rw [(import_assigned hasTransactionsList s parsed ts hv).2]
    split <;> simp

/-- The validation of the import is the one of the specification: it passes
exactly for the bundles that are acceptable, and when it throws, the message is
the reason of the first check that the first failing element fails. -/
theorem import_validation (hasTransactionsList : Bool) (s : RawLedger) (parsed : JSON) :
    ((∀ m, (importDataFromFile hasTransactionsList s parsed).alert ≠ .failed m) ↔
      bundleAcceptable parsed = true) ∧
    (∀ m, (importDataFromFile hasTransactionsList s parsed).alert = .failed m →
      (isObject parsed = false ∧ m = "Invalid JSON structure") ∨
      (isObject parsed = true ∧ (∀ ts, parsed.get "transactions" ≠ some (.arr ts)) ∧
        m = "Missing transactions array") ∨
      (∃ before t after, parsed.get "transactions" = some (.arr (before ++ t :: after)) ∧
        (∀ u ∈ before, entryAcceptable u = true) ∧
        entryAcceptable t = false ∧ firstFailedCheck t = some m)) := by
  refine ⟨?_, ?_⟩
  · rw [← validateImport_ok_iff]
    constructor
    · intro h
      cases hv : validateImport parsed with
      | error m =>
        exact absurd ((import_alert_failed_iff hasTransactionsList s parsed m).mpr hv) (h m)
      | ok ts => exact ⟨ts, rfl⟩
    · rintro ⟨ts, hts⟩ m hf
      rw [import_alert_failed_iff, hts] at hf
      simp at hf
  · intro m hf
    exact validateImport_error parsed m
      ((import_alert_failed_iff hasTransactionsList s parsed m).mp hf)

/-- C4, the code at the failing input: the bundle whose only element has no
description is acceptable and its element fails no check, yet the import
reports a failure, whose message is the one of a TypeError and the reason of
no element, whether the page has the list of transactions or not; the array
and the offset of the bundle were assigned before. -/
theorem import_of_acceptable_bundle_reports_failure :
    bundleAcceptable undescribedBundle = true ∧
      firstFailedCheck undescribedEntry = none ∧
      importDataFromFile true scenarioRaw undescribedBundle =
        { state := { transactions := [undescribedEntry], balanceOffset := .finite 7 },
          alert := .failedRendering } ∧
      importDataFromFile false scenarioRaw undescribedBundle =
        { state := { transactions := [undescribedEntry], balanceOffset := .finite 7 },
          alert := .failedRendering } :=
  ⟨rfl, rfl, rfl, rfl⟩

/-- C5, the code at the failing input: the import of the bundle with the bare
element into the ledger of the scenario reports a failure, and the state after
it is the one of the bundle: one element instead of two, and the offset 7
instead of 0. -/
theorem failed_import_replaces_the_state :
    scenarioRaw.transactions.length = 2 ∧ scenarioRaw.balanceOffset = .finite 0 ∧
      importDataFromFile true scenarioRaw bareBundle =
        { state := { transactions := [bareEntry], balanceOffset := .finite 7 },
          alert := .failedRendering } ∧
      importDataFromFile false scenarioRaw bareBundle =
        { state := { transactions := [bareEntry], balanceOffset := .finite 7 },
          alert := .failedRendering } :=
  ⟨rfl, rfl, rfl, rfl⟩

/-! ### Export then import -/

theorem exportData_read_back (s : RawLedger) (isoNow : String) :
    stringifyParse (exportData s isoNow) =
      .obj [("exportVersion", .num (.finite 1)), ("exportedAt", .str isoNow),
            ("transactions", .arr (stringifyParseItems s.transactions)),
            ("balanceOffset", stringifyParse (.num s.balanceOffset))] := by
  rfl

theorem read_back_get_transactions (s : RawLedger) (isoNow : String) :
    (stringifyParse (exportData s isoNow)).get "transactions" =
      some (.arr (stringifyParseItems s.transactions)) := by
  rw [exportData_read_back]
  simp [JSON.get, List.lookup]

theorem read_back_offset (s : RawLedger) (isoNow : String) :
    importedOffset (stringifyParse (exportData s isoNow)) =
      match s.balanceOffset with
      | .finite q => .finite q
      | _ => .finite 0 := by
  rw [exportData_read_back]
  cases s with
  | mk ts offset => cases offset <;> rfl

/-- C6, the claim fails: from the state without transactions whose offset is
Infinity, the export writes null for the offset, and the import of it is
successful and leaves the offset 0. -/
theorem export_import_loses_infinite_offset :
    (stringifyParse (exportData infiniteOffsetState "2024-02-04T00:00:00.000Z")).get
        "balanceOffset" = some .null ∧
      importDataFromFile true infiniteOffsetState
          (stringifyParse (exportData infiniteOffsetState "2024-02-04T00:00:00.000Z")) =
        { state := { transactions := [], balanceOffset := .finite 0 },
          alert := .successful } ∧
      infiniteOffsetState.balanceOffset = .posInf ∧
      JSNumber.posInf ≠ JSNumber.finite 0 :=
  ⟨rfl, rfl, rfl, by decide⟩

/-- C6 (amended): whatever the state is, the import of the bundle that
exportData builds from it either leaves the state as it is (the validation
threw) or assigns what JSON read back: the elements and the offset, with null
for Infinity and NaN in the elements and 0 for an offset that is Infinity or
NaN.  So for a state without Infinity and NaN the transactions and the offset
after the import are those before it, whether or not the stored transactions
pass the validation and whatever the import reports. -/
theorem import_of_export (hasTransactionsList : Bool) (s : RawLedger) (isoNow : String) :
    ((importDataFromFile hasTransactionsList s (stringifyParse (exportData s isoNow))).state =
        s ∨
      (importDataFromFile hasTransactionsList s (stringifyParse (exportData s isoNow))).state =
        { transactions := stringifyParseItems s.transactions,
          balanceOffset :=
            match s.balanceOffset with
            | .finite q => .finite q
            | _ => .finite 0 }) ∧
    (JsonExact s →
      (importDataFromFile hasTransactionsList s (stringifyParse (exportData s isoNow))).state =
        s) := by
  have key : (importDataFromFile hasTransactionsList s
        (stringifyParse (exportData s isoNow))).state = s ∨
      (importDataFromFile hasTransactionsList s (stringifyParse (exportData s isoNow))).state =
        { transactions := stringifyParseItems s.transactions,
          balanceOffset :=
            match s.balanceOffset with
            | .finite q => .finite q
            | _ => .finite 0 } := by
    cases hv : validateImport (stringifyParse (exportData s isoNow)) with
    | error m =>
      left
      rw [import_rejected hasTransactionsList s _ m hv]
    | ok ts =>
      right
      have hts := validateImport_ok_transactions _ ts hv
      rw [read_back_get_transactions] at hts
      simp only [Option.some.injEq, JSON.arr.injEq] at hts
      rw [(import_assigned hasTransactionsList s _ ts hv).1, read_back_offset, ← hts]
  refine ⟨key, ?_⟩
  rintro ⟨hitems, q, hq⟩
  rcases key with h | h
  · exact h
  · rw [h, hitems, hq]
    cases s
    simp_all

/-- Witness of C6: the state of the ledger of the scenario. -/
theorem import_of_export_witness :
    JsonExact scenarioRaw ∧
      (importDataFromFile true scenarioRaw
        (stringifyParse (exportData scenarioRaw "2024-02-01T00:00:00.000Z"))).state =
          scenarioRaw :=
  have h : JsonExact scenarioRaw := ⟨rfl, 0, rfl⟩
  ⟨h, (import_of_export true scenarioRaw "2024-02-01T00:00:00.000Z").2 h⟩

/-! ### Pay periods

The constructor reads the years 0 to 99 as 1900 to 1999, so that the period
functions leave the year of such a date.  The lemmas of this section state what
holds for the other years; the theorems C7 to C11 evaluate the functions at
dates of the years 50 and 100. -/

theorem makeFullYear_of_not_two_digits (year : Int) (h : year < 0 ∨ 99 < year) :
    JSDate.makeFullYear year = year := by
  unfold JSDate.makeFullYear
  rw [if_neg]
  omega

/-- A date whose year is not one of 0 to 99 lies in the pay period that starts
at its period start. -/
theorem own_period_of_year (d : JSDate) (hy : d.year < 0 ∨ 99 < d.year) :
    isTransactionInPayPeriod d (getPayPeriodStart d) = true := by
  have hm := d.month_lt
  simp only [isTransactionInPayPeriod, getPayPeriodStart, getPayPeriodEnd, JSDate.le,
    JSDate.startOfDay, JSDate.endOfDay, JSDate.construct,
    makeFullYear_of_not_two_digits d.year hy]
  simp only [JSDate.makeFullYear]
  split <;> split <;> simp <;> omega

/-- The period start of a period start is that period start, but for the
dates from the 1st to the 24th of January of the year 100. -/
theorem idempotent_of_year (d : JSDate) (hy : ¬ (d.year = 100 ∧ d.month = 0 ∧ d.day < 25)) :
    getPayPeriodStart (getPayPeriodStart d) = getPayPeriodStart d := by
  have hm := d.month_lt
  rw [JSDate.ext_iff]
  simp only [getPayPeriodStart, JSDate.construct, JSDate.makeFullYear]
  split <;> simp <;> split <;> split <;> omega

/-- Among the period starts whose year is not one of 0 to 99, the one that
contains a date of such a year is the period start of the date. -/
theorem contains_iff_of_year (d p : JSDate) (hp : IsPeriodStart p)
    (hd : d.year < 0 ∨ 99 < d.year) (hq : p.year < 0 ∨ 99 < p.year) :
    isTransactionInPayPeriod d p = true ↔ p = getPayPeriodStart d := by
  have hm := d.month_lt
  have hpm := p.month_lt
  obtain ⟨h25, h0⟩ := hp
  rw [JSDate.ext_iff]
  simp only [isTransactionInPayPeriod, getPayPeriodStart, getPayPeriodEnd, JSDate.le,
    JSDate.startOfDay, JSDate.endOfDay, JSDate.construct,
    makeFullYear_of_not_two_digits d.year hd, makeFullYear_of_not_two_digits p.year hq]
  split <;> simp <;> omega

/-- A date on the 25th whose year is below 0 or above 100 has the 25th of its
own month and year as period start, lies in that period and not in the one
before. -/
theorem on_the_25th_of_year (d : JSDate) (h : d.day = 25) (hy0 : d.year < 0 ∨ 100 < d.year) :
    ((getPayPeriodStart d).year = d.year ∧ (getPayPeriodStart d).month = d.month ∧
      (getPayPeriodStart d).day = 25 ∧ (getPayPeriodStart d).ms = 0) ∧
    isTransactionInPayPeriod d (getPayPeriodStart d) = true ∧
    isTransactionInPayPeriod d (getPreviousPayPeriod (getPayPeriodStart d)) = false := by
  have hm := d.month_lt
  have hy : d.year < 0 ∨ 99 < d.year := by omega
  refine ⟨?_, own_period_of_year d hy, ?_⟩
  · simp only [getPayPeriodStart, JSDate.construct, h,
      makeFullYear_of_not_two_digits d.year hy]
    simp
    omega
  · simp only [isTransactionInPayPeriod, getPayPeriodStart, getPayPeriodEnd,
      getPreviousPayPeriod, JSDate.le, JSDate.startOfDay, JSDate.endOfDay, JSDate.construct, h,
      makeFullYear_of_not_two_digits d.year hy]
    simp only [JSDate.makeFullYear]
    simp
    split <;> split <;> omega

/-- For a period start whose year is below -1 or above 100, the next period of
the previous one and the previous period of the next one are the period
itself. -/
theorem next_previous_of_year (p : JSDate) (hp : IsPeriodStart p)
    (hy : p.year < -1 ∨ 100 < p.year) :
    getNextPayPeriod (getPreviousPayPeriod p) = p ∧
      getPreviousPayPeriod (getNextPayPeriod p) = p := by
  have hm := p.month_lt
  obtain ⟨h25, h0⟩ := hp
  constructor <;>
    (rw [JSDate.ext_iff]
     simp only [getNextPayPeriod, getPreviousPayPeriod, JSDate.construct, JSDate.makeFullYear]
     split <;> split <;> omega)

/-- C8, the code at the failing input: the period start of the date 0050-01-26
is 1950-01-25, and the date is not in the period that starts there. -/
theorem getPayPeriodStart_leaves_year_50 :
    getPayPeriodStart year50Jan26 = the25th 1950 0 (by decide) ∧
      isTransactionInPayPeriod year50Jan26 (getPayPeriodStart year50Jan26) = false := by
  decide

/-- C7, the code at the failing input: two period starts, 0050-01-25 and
0050-02-25, both contain the date 0050-03-10, since their periods end in 1950;
the period start of the date is 1950-02-25, whose period does not contain
it. -/
theorem periods_overlap_in_year_50 :
    IsPeriodStart (the25th 50 0 (by decide)) ∧ IsPeriodStart (the25th 50 1 (by decide)) ∧
      the25th 50 0 (by decide) ≠ the25th 50 1 (by decide) ∧
      isTransactionInPayPeriod year50Mar10 (the25th 50 0 (by decide)) = true ∧
      isTransactionInPayPeriod year50Mar10 (the25th 50 1 (by decide)) = true ∧
      getPayPeriodEnd (the25th 50 0 (by decide)) =
        { year := 1950, month := 1, day := 24, ms := 0, month_lt := by decide,
          day_pos := by decide, day_le := by decide, ms_lt := by decide } ∧
      getPayPeriodStart year50Mar10 = the25th 1950 1 (by decide) ∧
      isTransactionInPayPeriod year50Mar10 (getPayPeriodStart year50Mar10) = false := by
  decide

/-- C9, the code at the failing input: the date 0050-01-25 at 13:45 is on the
25th, its period start is the 25th of January of 1950 and not of its own year,
and the date is not in the period that starts there. -/
theorem on_the_25th_of_year_50 :
    year50Jan25Afternoon.day = 25 ∧
      getPayPeriodStart year50Jan25Afternoon = the25th 1950 0 (by decide) ∧
      (getPayPeriodStart year50Jan25Afternoon).year ≠ year50Jan25Afternoon.year ∧
      isTransactionInPayPeriod year50Jan25Afternoon
        (getPayPeriodStart year50Jan25Afternoon) = false := by
  decide

/-- C10, the code at the failing input: the period start of 0100-01-10 is
0099-12-25, and the period start of that is 1999-12-25. -/
theorem getPayPeriodStart_twice_in_year_100 :
    getPayPeriodStart year100Jan10 = the25th 99 11 (by decide) ∧
      getPayPeriodStart (getPayPeriodStart year100Jan10) = the25th 1999 11 (by decide) ∧
      getPayPeriodStart (getPayPeriodStart year100Jan10) ≠ getPayPeriodStart year100Jan10 := by
  decide

/-- C11, the code at the failing input: for the period start 0050-06-25 the
previous period is 1950-05-25, the next one of that is 1950-06-25, and the
previous one of the next is 1950-06-25 as well, so neither is the period
itself. -/
theorem next_previous_in_year_50 :
    IsPeriodStart (the25th 50 5 (by decide)) ∧
      getPreviousPayPeriod (the25th 50 5 (by decide)) = the25th 1950 4 (by decide) ∧
      getNextPayPeriod (getPreviousPayPeriod (the25th 50 5 (by decide))) =
        the25th 1950 5 (by decide) ∧
      getPreviousPayPeriod (getNextPayPeriod (the25th 50 5 (by decide))) =
        the25th 1950 5 (by decide) ∧
      getNextPayPeriod (getPreviousPayPeriod (the25th 50 5 (by decide))) ≠
        the25th 50 5 (by decide) := by
  decide

/-! ### The invariant of the data model -/

theorem mem_splice1 {α : Type} (xs : List α) (index : Int) (x : α) (h : x ∈ splice1 xs index) :
    x ∈ xs :=
  List.mem_of_mem_eraseIdx h

theorem mem_assignFirst (ts : List Transaction) (transactionId : Int) (d : String) (a : ℚ)
    (t : Transaction) (h : t ∈ assignFirst ts transactionId d a) :
    t ∈ ts ∨ ∃ u ∈ ts, t = { u with description := d, amount := a } := by
  induction ts with
  | nil => simp [assignFirst] at h
  | cons u rest ih =>
    simp only [assignFirst] at h
    split at h
    · rcases List.mem_cons.mp h with rfl | h
      · exact Or.inr ⟨u, List.mem_cons_self _ _, rfl⟩
      · exact Or.inl (List.mem_cons_of_mem _ h)
    · rcases List.mem_cons.mp h with rfl | h
      · exact Or.inl (List.mem_cons_self _ _)
      · rcases ih h with h | ⟨v, hv, e⟩
        · exact Or.inl (List.mem_cons_of_mem _ h)
        · exact Or.inr ⟨v, List.mem_cons_of_mem _ hv, e⟩

theorem invariant_addTransaction (s : Ledger) (h : LedgerInvariant s) (description : String)
    (amount : Option ℚ) (type category : String) (now : Int) (isoNow : String)
    (ha : ∀ a, amount = some a → 0 < a) :
    LedgerInvariant (addTransaction s description amount type category now isoNow).ledger := by
  unfold addTransaction
  split
  · exact h
  · split
    · exact h
    · rename_i h1 h2
      intro t ht
      rcases List.mem_cons.mp ht with rfl | ht
      · cases amount with
        | none => simp [truthyNumber] at h1
        | some a =>
          refine ⟨ha a rfl, fun _ => ?_⟩
          simpa using h2
      · exact h t ht

theorem invariant_addExpense (s : Ledger) (h : LedgerInvariant s) (expenseName : String)
    (expenseAmount : Option ℚ) (category : String) (now : Int) (isoNow : String)
    (hc : category ≠ "") :
    LedgerInvariant (addExpense s expenseName expenseAmount category now isoNow).ledger := by
  unfold addExpense
  split
  · exact h
  · cases expenseAmount with
    | none => exact h
    | some amount =>
      simp only
      split
      · exact h
      · split
        · exact h
        · rename_i h1 h2
          intro t ht
          rcases List.mem_cons.mp ht with rfl | ht
          · refine ⟨?_, fun _ => hc⟩
            simp only [Bool.or_eq_true, beq_iff_eq, decide_eq_true_eq, not_or, not_le] at h1
            exact h1.2
          · exact h t ht

theorem invariant_saveExpenseEdit (s : Ledger) (h : LedgerInvariant s) (transactionId : Int)
    (newDescription : String) (newAmount : Option ℚ) :
    LedgerInvariant (saveExpenseEdit s transactionId newDescription newAmount).ledger := by
  unfold saveExpenseEdit
  split
  · exact h
  · cases newAmount with
    | none => exact h
    | some amount =>
      simp only
      split
      · exact h
      · split
        · exact h
        · rename_i h1 h2
          simp only [Bool.or_eq_true, beq_iff_eq, decide_eq_true_eq, not_or, not_le] at h1
          intro t ht
          rcases mem_assignFirst _ _ _ _ t ht with ht | ⟨u, hu, rfl⟩
          · exact h t ht
          · exact ⟨h1.2, (h u hu).2⟩

theorem invariant_deleteTransaction (s : Ledger) (h : LedgerInvariant s) (index : Int)
    (confirmed : Bool) : LedgerInvariant (deleteTransaction s index confirmed).ledger := by
  unfold deleteTransaction
  split
  · intro t ht
    exact h t (mem_splice1 _ _ t ht)
  · exact h

theorem invariant_deleteExpense (s : Ledger) (h : LedgerInvariant s) (transactionId : Int)
    (confirmed : Bool) : LedgerInvariant (deleteExpense s transactionId confirmed).ledger := by
  unfold deleteExpense
  split
  · exact h
  · split
    · exact h
    · intro t ht
      exact h t (mem_splice1 _ _ t ht)

theorem invariant_editBalance (s : Ledger) (h : LedgerInvariant s) (newBalance : PromptReply) :
    LedgerInvariant (editBalance s newBalance).ledger := by
  unfold editBalance
  cases newBalance with
  | dismissed => exact h
  | entered parsed =>
    cases parsed with
    | none => exact h
    | some x =>
      simp only
      split
      · exact h
      · exact h

/-! ### The invariant and the import -/

theorem ledgerInvariant_scenarioLedger : LedgerInvariant scenarioLedger := by
  intro t ht
  simp only [scenarioLedger, List.mem_cons, List.mem_singleton, List.not_mem_nil, or_false] at ht
  rcases ht with rfl | rfl
  · exact ⟨by norm_num, fun _ => by decide⟩
  · exact ⟨by norm_num, fun _ => by decide⟩

/-- The form records a negative amount: its test of the amount refuses only 0
and NaN. -/
theorem addTransaction_records_negative :
    (addTransaction scenarioLedger "Refund" (some (-5)) "expense" "Food" 1706349600000
        "2024-01-27T10:00:00.000Z").ledger.transactions =
      { id := 1706349600000, description := "Refund", amount := -5, type := "expense",
        category := "Food", date := "2024-01-27T10:00:00.000Z" } ::
        scenarioLedger.transactions := by
  have e7 : ("Refund" == "") = false := by decide
  have e8 : ("expense" == "") = false := by decide
  have e9 : ("Food" == "") = false := by decide
  simp [addTransaction, truthyNumber, e7, e8, e9]

/-- The predicate on the object in memory of a transaction is the predicate on
the transaction. -/
theorem entryInvariant_toJSON (t : Transaction) :
    entryInvariant t.toJSON = true ↔
      (0 < t.amount ∧ (t.type = "expense" → t.category ≠ "")) := by
  simp only [entryInvariant, Transaction.toJSON, JSON.get, List.lookup, amountPositive,
    strictEqString, nonEmptyText]
  simp only [show ("amount" == "id") = false by decide,
    show ("amount" == "description") = false by decide,
    show ("amount" == "amount") = true by decide,
    show ("type" == "id") = false by decide,
    show ("type" == "description") = false by decide,
    show ("type" == "amount") = false by decide,
    show ("type" == "type") = true by decide,
    show ("category" == "id") = false by decide,
    show ("category" == "description") = false by decide,
    show ("category" == "amount") = false by decide,
    show ("category" == "type") = false by decide,
    show ("category" == "category") = true by decide]
  by_cases h1 : t.type = "expense" <;> by_cases h2 : t.category = "" <;> simp [h1, h2]

/-- The predicate on a ledger is the predicate on its state in memory. -/
theorem ledgerInvariant_iff_raw (s : Ledger) : LedgerInvariant s ↔ RawInvariant s.toRaw := by
  simp only [LedgerInvariant, RawInvariant, Ledger.toRaw, List.mem_map, forall_exists_index,
    and_imp, forall_apply_eq_imp_iff₂, entryInvariant_toJSON]

/-- The operations on the ledger other than the import keep the predicate; the
form is taken with a positive amount and the card with a category. -/
theorem ledgerInvariant_handlers (s : Ledger) (h : LedgerInvariant s) :
    (∀ (description : String) (amount : Option ℚ) (type category : String) (now : Int)
        (isoNow : String), (∀ a, amount = some a → 0 < a) →
      LedgerInvariant (addTransaction s description amount type category now isoNow).ledger) ∧
    (∀ (expenseName : String) (expenseAmount : Option ℚ) (category : String) (now : Int)
        (isoNow : String), category ≠ "" →
      LedgerInvariant (addExpense s expenseName expenseAmount category now isoNow).ledger) ∧
    (∀ (transactionId : Int) (newDescription : String) (newAmount : Option ℚ),
      LedgerInvariant (saveExpenseEdit s transactionId newDescription newAmount).ledger) ∧
    (∀ (index : Int) (confirmed : Bool),
      LedgerInvariant (deleteTransaction s index confirmed).ledger) ∧
    (∀ (transactionId : Int) (confirmed : Bool),
      LedgerInvariant (deleteExpense s transactionId confirmed).ledger) ∧
    (∀ newBalance : PromptReply, LedgerInvariant (editBalance s newBalance).ledger) :=
  ⟨fun d a ty c n i ha => invariant_addTransaction s h d a ty c n i ha,
    fun e a c n i hc => invariant_addExpense s h e a c n i hc,
    fun id d a => invariant_saveExpenseEdit s h id d a,
    fun i c => invariant_deleteTransaction s h i c,
    fun id c => invariant_deleteExpense s h id c,
    fun r => invariant_editBalance s h r⟩

/-- C12, the claim fails: the state of the ledger of the scenario satisfies
the predicate, the import of a bundle with an expense of amount -5 and no
category is successful, and the state it leaves does not satisfy the
predicate. -/
theorem import_breaks_invariant :
    LedgerInvariant scenarioLedger ∧ RawInvariant scenarioRaw ∧
      importDataFromFile true scenarioRaw refundBundle =
        { state := { transactions := [refundEntry], balanceOffset := .finite 0 },
          alert := .successful } ∧
      ¬ RawInvariant (importDataFromFile true scenarioRaw refundBundle).state := by
  have hbad : entryInvariant refundEntry = false := by
    simp only [entryInvariant, refundEntry, JSON.get, List.lookup, amountPositive]
    simp only [show ("amount" == "id") = false by decide,
      show ("amount" == "description") = false by decide,
      show ("amount" == "amount") = true by decide]
    norm_num
  refine ⟨ledgerInvariant_scenarioLedger,
    (ledgerInvariant_iff_raw scenarioLedger).mp ledgerInvariant_scenarioLedger, rfl, ?_⟩
  have hstate : (importDataFromFile true scenarioRaw refundBundle).state.transactions =
      [refundEntry] := rfl
  intro hinv
  have := hinv refundEntry (by rw [hstate]; exact List.mem_cons_self _ _)
  rw [hbad] at this
  exact Bool.false_ne_true this

/-- C12 (amended): when every stored amount is positive and every stored
expense has a category, the same holds after addTransaction with a positive
amount, after the add-expense handler of a card with a category, after
saveExpenseEdit, deleteTransaction, deleteExpense and editBalance, and after
an import that the validation rejects, which leaves the state as it is.  After
a successful import the list is the array of the bundle, so that the predicate
holds exactly when the elements of the bundle satisfy it; the same is proved
for every bundle that passes the validation. -/
theorem ledgerInvariant_preserved :
    (∀ s : Ledger, LedgerInvariant s →
      (∀ (description : String) (amount : Option ℚ) (type category : String) (now : Int)
          (isoNow : String), (∀ a, amount = some a → 0 < a) →
        LedgerInvariant
          (addTransaction s description amount type category now isoNow).ledger) ∧
      (∀ (expenseName : String) (expenseAmount : Option ℚ) (category : String) (now : Int)
          (isoNow : String), category ≠ "" →
        LedgerInvariant (addExpense s expenseName expenseAmount category now isoNow).ledger) ∧
      (∀ (transactionId : Int) (newDescription : String) (newAmount : Option ℚ),
        LedgerInvariant (saveExpenseEdit s transactionId newDescription newAmount).ledger) ∧
      (∀ (index : Int) (confirmed : Bool),
        LedgerInvariant (deleteTransaction s index confirmed).ledger) ∧
      (∀ (transactionId : Int) (confirmed : Bool),
        LedgerInvariant (deleteExpense s transactionId confirmed).ledger) ∧
      (∀ newBalance : PromptReply, LedgerInvariant (editBalance s newBalance).ledger)) ∧
    (∀ s : Ledger, LedgerInvariant s ↔ RawInvariant s.toRaw) ∧
    (∀ (hasTransactionsList : Bool) (r : RawLedger) (parsed : JSON) (m : String),
      RawInvariant r →
      (importDataFromFile hasTransactionsList r parsed).alert = .failed m →
      (importDataFromFile hasTransactionsList r parsed).state = r ∧
        RawInvariant (importDataFromFile hasTransactionsList r parsed).state) ∧
    (∀ (hasTransactionsList : Bool) (r : RawLedger) (parsed : JSON) (ts : List JSON),
      bundleAcceptable parsed = true → parsed.get "transactions" = some (.arr ts) →
      (importDataFromFile hasTransactionsList r parsed).state.transactions = ts ∧
        (RawInvariant (importDataFromFile hasTransactionsList r parsed).state ↔
          ∀ t ∈ ts, entryInvariant t = true)) ∧
    (∀ (hasTransactionsList : Bool) (r : RawLedger) (parsed : JSON) (ts : List JSON),
      (importDataFromFile hasTransactionsList r parsed).alert = .successful →
      parsed.get "transactions" = some (.arr ts) →
      (importDataFromFile hasTransactionsList r parsed).state.transactions = ts ∧
        (RawInvariant (importDataFromFile hasTransactionsList r parsed).state ↔
          ∀ t ∈ ts, entryInvariant t = true)) := by
  have hpass : ∀ (hasTransactionsList : Bool) (r : RawLedger) (parsed : JSON) (ts : List JSON),
      bundleAcceptable parsed = true → parsed.get "transactions" = some (.arr ts) →
      (importDataFromFile hasTransactionsList r parsed).state.transactions = ts ∧
        (RawInvariant (importDataFromFile hasTransactionsList r parsed).state ↔
          ∀ t ∈ ts, entryInvariant t = true) := by
    intro hasTransactionsList r parsed ts hacc hg
    obtain ⟨ts0, hv⟩ := (validateImport_ok_iff parsed).mpr hacc
    have hts := validateImport_ok_transactions parsed ts0 hv
    rw [hg] at hts
    simp only [Option.some.injEq, JSON.arr.injEq] at hts
    subst hts
    have hstate := (import_assigned hasTransactionsList r parsed ts hv).1
    refine ⟨by rw [hstate], ?_⟩
    simp only [RawInvariant, hstate]
  refine ⟨ledgerInvariant_handlers, ledgerInvariant_iff_raw, ?_, hpass, ?_⟩
  · intro hasTransactionsList r parsed m hr hf
    have hv := (import_alert_failed_iff hasTransactionsList r parsed m).mp hf
    rw [import_rejected hasTransactionsList r parsed m hv]
    exact ⟨rfl, hr⟩
  · intro hasTransactionsList r parsed ts hs hg
    apply hpass hasTransactionsList r parsed ts _ hg
    rw [← validateImport_ok_iff]
    cases hv : validateImport parsed with
    | error m =>
      rw [import_rejected hasTransactionsList r parsed m hv] at hs
      simp at hs
    | ok ts0 => exact ⟨ts0, rfl⟩

/-- Witness of C12: an edit of the Groceries of the scenario. -/
theorem ledgerInvariant_preserved_witness :
    LedgerInvariant scenarioLedger ∧
      LedgerInvariant (saveExpenseEdit scenarioLedger 1706263200000 "Lunch" (some 20)).ledger :=
  ⟨ledgerInvariant_scenarioLedger,
    (ledgerInvariant_preserved.1 scenarioLedger ledgerInvariant_scenarioLedger).2.2.1
      1706263200000 "Lunch" (some 20)⟩

/-! ### The frame of the offset -/

/-- C13, the claim fails: the import of a bundle with the offset 7 into the
state of the ledger of the scenario, whose offset is 0, is successful and
leaves the offset 7. -/
theorem import_changes_balanceOffset :
    scenarioRaw.balanceOffset = .finite 0 ∧
      importDataFromFile true scenarioRaw offsetBundle =
        { state := { transactions := [], balanceOffset := .finite 7 },
          alert := .successful } ∧
      JSNumber.finite 7 ≠ JSNumber.finite 0 := by
  refine ⟨rfl, rfl, ?_⟩
  simp only [ne_eq, JSNumber.finite.injEq]
  norm_num

/-- The handlers other than editBalance and the import leave the offset. -/
theorem balanceOffset_handlers (s : Ledger) :
    (∀ (description : String) (amount : Option ℚ) (type category : String) (now : Int)
        (isoNow : String),
      (addTransaction s description amount type category now isoNow).ledger.balanceOffset =
        s.balanceOffset) ∧
    (∀ (expenseName : String) (expenseAmount : Option ℚ) (category : String) (now : Int)
        (isoNow : String),
      (addExpense s expenseName expenseAmount category now isoNow).ledger.balanceOffset =
        s.balanceOffset) ∧
    (∀ (transactionId : Int) (newDescription : String) (newAmount : Option ℚ),
      (saveExpenseEdit s transactionId newDescription newAmount).ledger.balanceOffset =
        s.balanceOffset) ∧
    (∀ (index : Int) (confirmed : Bool),
      (deleteTransaction s index confirmed).ledger.balanceOffset = s.balanceOffset) ∧
    (∀ (transactionId : Int) (confirmed : Bool),
      (deleteExpense s transactionId confirmed).ledger.balanceOffset = s.balanceOffset) := by
  refine ⟨?_, ?_, ?_, ?_, ?_⟩
  · intro description amount type category now isoNow
    unfold addTransaction
    split
    · rfl
    · split <;> rfl
  · intro expenseName expenseAmount category now isoNow
    unfold addExpense
    split
    · rfl
    · cases expenseAmount with
      | none => rfl
      | some amount =>
        simp only
        split
        · rfl
        · split <;> rfl
  · intro transactionId newDescription newAmount
    unfold saveExpenseEdit
    split
    · rfl
    · cases newAmount with
      | none => rfl
      | some amount =>
        simp only
        split
        · rfl
        · split <;> rfl
  · intro index confirmed
    unfold deleteTransaction
    split <;> rfl
  · intro transactionId confirmed
    unfold deleteExpense
    split
    · rfl
    · split <;> rfl

/-- C13 (amended): the offset is the same after recording a transaction (by
the form or by a card), after deleting one (by index or by id), after editing
one, and after an import that the validation rejects; a successful import
assigns the offset of the bundle, or 0 when the bundle has no numeric offset,
and the same is proved for every bundle that passes the validation. -/
theorem balanceOffset_frame :
    (∀ s : Ledger,
      (∀ (description : String) (amount : Option ℚ) (type category : String) (now : Int)
          (isoNow : String),
        (addTransaction s description amount type category now isoNow).ledger.balanceOffset =
          s.balanceOffset) ∧
      (∀ (expenseName : String) (expenseAmount : Option ℚ) (category : String) (now : Int)
          (isoNow : String),
        (addExpense s expenseName expenseAmount category now isoNow).ledger.balanceOffset =
          s.balanceOffset) ∧
      (∀ (transactionId : Int) (newDescription : String) (newAmount : Option ℚ),
        (saveExpenseEdit s transactionId newDescription newAmount).ledger.balanceOffset =
          s.balanceOffset) ∧
      (∀ (index : Int) (confirmed : Bool),
        (deleteTransaction s index confirmed).ledger.balanceOffset = s.balanceOffset) ∧
      (∀ (transactionId : Int) (confirmed : Bool),
        (deleteExpense s transactionId confirmed).ledger.balanceOffset = s.balanceOffset)) ∧
    (∀ (hasTransactionsList : Bool) (r : RawLedger) (parsed : JSON) (m : String),
      (importDataFromFile hasTransactionsList r parsed).alert = .failed m →
      (importDataFromFile hasTransactionsList r parsed).state.balanceOffset =
        r.balanceOffset) ∧
    (∀ (hasTransactionsList : Bool) (r : RawLedger) (parsed : JSON),
      bundleAcceptable parsed = true →
      (importDataFromFile hasTransactionsList r parsed).state.balanceOffset =
        importedOffset parsed) ∧
    (∀ (hasTransactionsList : Bool) (r : RawLedger) (parsed : JSON),
      (importDataFromFile hasTransactionsList r parsed).alert = .successful →
      (importDataFromFile hasTransactionsList r parsed).state.balanceOffset =
        importedOffset parsed) := by
  have hacc : ∀ (hasTransactionsList : Bool) (r : RawLedger) (parsed : JSON),
      bundleAcceptable parsed = true →
      (importDataFromFile hasTransactionsList r parsed).state.balanceOffset =
        importedOffset parsed := by
    intro hasTransactionsList r parsed hb
    obtain ⟨ts, hv⟩ := (validateImport_ok_iff parsed).mpr hb
    rw [(import_assigned hasTransactionsList r parsed ts hv).1]
  refine ⟨balanceOffset_handlers, ?_, hacc, ?_⟩
  · intro hasTransactionsList r parsed m hf
    have hv := (import_alert_failed_iff hasTransactionsList r parsed m).mp hf
    rw [import_rejected hasTransactionsList r parsed m hv]
  · intro hasTransactionsList r parsed hs
    apply hacc
    rw [← validateImport_ok_iff]
    cases hv : validateImport parsed with
    | error m =>
      rw [import_rejected hasTransactionsList r parsed m hv] at hs
      simp at hs
    | ok ts => exact ⟨ts, rfl⟩

/-- Witness of C13: the import of the bundle with the offset 7. -/
theorem balanceOffset_frame_witness :
    bundleAcceptable offsetBundle = true ∧
      (importDataFromFile true scenarioRaw offsetBundle).state.balanceOffset =
        importedOffset offsetBundle :=
  have h : bundleAcceptable offsetBundle = true := rfl
  ⟨h, balanceOffset_frame.2.2.1 true scenarioRaw offsetBundle h⟩

/-! ### Editing an expense -/

theorem assignFirst_split (ts : List Transaction) (transactionId : Int) (d : String) (a : ℚ)
    (h : ∃ t ∈ ts, t.id = transactionId) :
    ∃ before t after, ts = before ++ t :: after ∧ t.id = transactionId ∧
      (∀ u ∈ before, u.id ≠ transactionId) ∧
      assignFirst ts transactionId d a =
        before ++ { t with description := d, amount := a } :: after := by
  induction ts with
  | nil => simp at h
  | cons u rest ih =>
    by_cases hu : u.id = transactionId
    · refine ⟨[], u, rest, rfl, hu, by simp, ?_⟩
      simp [assignFirst, hu]
    · have h2 : ∃ t ∈ rest, t.id = transactionId := by
        obtain ⟨t, ht, e⟩ := h
        rcases List.mem_cons.mp ht with rfl | ht
        · exact absurd e hu
        · exact ⟨t, ht, e⟩
      obtain ⟨before, t, after, e, hid, hb, ha⟩ := ih h2
      refine ⟨u :: before, t, after, by simp [e], hid, ?_, ?_⟩
      · intro v hv
        rcases List.mem_cons.mp hv with rfl | hv
        · exact hu
        · exact hb v hv
      · simp [assignFirst, hu, ha]

theorem filter_expense_of_no_id (ts : List Transaction) (transactionId : Int)
    (h : ts.countP (fun t => t.id == transactionId) = 0) :
    ts.filter (fun t => t.type == "expense" && t.id != transactionId) =
      ts.filter (fun t => t.type == "expense") := by
  apply List.filter_congr
  intro t ht
  have := (List.countP_eq_zero.mp h) t ht
  simp only [beq_iff_eq] at this
  simp [this]

theorem filter_expense_withoutEdited (ts : List Transaction) (transactionId : Int)
    (h : ts.countP (fun t => t.id == transactionId) = 1) :
    ts.filter (fun t => t.type == "expense" && t.id != transactionId) =
      (withoutEdited ts transactionId).filter (fun t => t.type == "expense") := by
  induction ts with
  | nil => simp at h
  | cons u rest ih =>
    by_cases hu : u.id = transactionId
    · have h0 : rest.countP (fun t => t.id == transactionId) = 0 := by
        simpa [List.countP_cons, hu] using h
      simp [withoutEdited, hu, List.filter_cons, ← filter_expense_of_no_id rest transactionId h0]
    · have h1 : rest.countP (fun t => t.id == transactionId) = 1 := by
        simpa [List.countP_cons, hu] using h
      simp [withoutEdited, hu, List.filter_cons, ih h1]

/-- The balance that the edit computes at line 648. -/
theorem saveExpenseEdit_available (ts : List Transaction) (transactionId : Int) :
    sumAmounts (ts.filter (fun t => t.type == "income")) -
        sumAmounts (ts.filter (fun t => t.type == "expense" && t.id != transactionId)) =
      availableForEdit ts transactionId := by
  simp only [availableForEdit, sumAmounts_eq_sum]

theorem saveExpenseEdit_invalid (s : Ledger) (transactionId : Int) (newDescription : String)
    (newAmount : Option ℚ) (hd : newDescription ≠ "")
    (ha : newAmount = none ∨ ∃ a, newAmount = some a ∧ a ≤ 0) :
    saveExpenseEdit s transactionId newDescription newAmount =
      { ledger := s, alert := some .enterValidAmount } := by
  have h1 : (newDescription == "") = false := by simpa using hd
  rcases ha with rfl | ⟨a, rfl, ha⟩
  · simp [saveExpenseEdit, h1]
  · simp [saveExpenseEdit, h1, ha]

theorem saveExpenseEdit_valid (s : Ledger) (transactionId : Int) (newDescription : String)
    (a : ℚ) (hd : newDescription ≠ "") (ha : 0 < a) :
    saveExpenseEdit s transactionId newDescription (some a) =
      if a > availableForEdit s.transactions transactionId then
        { ledger := s,
          alert := some (.insufficientFunds (availableForEdit s.transactions transactionId)) }
      else
        { ledger :=
            { transactions := assignFirst s.transactions transactionId newDescription a,
              balanceOffset := s.balanceOffset },
          alert := none } := by
  have h1 : (newDescription == "") = false := by simpa using hd
  have h2 : ¬ a ≤ 0 := not_le.mpr ha
  have h3 : (a == 0) = false := by simpa using ne_of_gt ha
  simp only [saveExpenseEdit, h1, Bool.false_eq_true, if_false, h3, h2, decide_False,
    Bool.or_self, saveExpenseEdit_available]

/-- C14, the claim fails: in a ledger where two expenses share the id 1 and the
income is 15, the income minus the expenses other than the edited one is 5,
yet the edit of the first of them to 12 is saved without an alert. -/
theorem saveExpenseEdit_shared_id :
    (∃ t ∈ sharedIdLedger.transactions, t.id = 1) ∧
      (12 : ℚ) > availableOtherThanEdited sharedIdLedger.transactions 1 ∧
      saveExpenseEdit sharedIdLedger 1 "Lunch" (some 12) =
        { ledger := sharedIdLedgerEdited, alert := none } := by
  have e1 : ("income" == "expense") = false := by decide
  have e2 : ("expense" == "income") = false := by decide
  refine ⟨⟨_, List.mem_cons_self _ _, rfl⟩, ?_, ?_⟩
  · simp [availableOtherThanEdited, withoutEdited, sharedIdLedger, List.filter_cons, e1, e2]
    norm_num
  · rw [saveExpenseEdit_valid sharedIdLedger 1 "Lunch" 12 (by decide) (by norm_num)]
    have hav : availableForEdit sharedIdLedger.transactions 1 = 15 := by
      simp [availableForEdit, sharedIdLedger, List.filter_cons, e1, e2]
    rw [hav]
    have h12 : ¬ ((12 : ℚ) > 15) := by norm_num
    rw [if_neg h12]
    simp [sharedIdLedger, sharedIdLedgerEdited, assignFirst]

/-- C14 (amended): for a ledger that holds a transaction with the given id and
an edit with a description that is not empty.  The edit is refused with the
alert of an invalid amount when the amount is NaN or at most 0.  It is refused
with the alert of insufficient funds exactly when the amount is positive and
exceeds the sum of all income amounts minus the sum of the amounts of all
expenses whose id is not the given one, over the whole list and without the
offset.  Whenever an alert is raised the ledger is as before.  Otherwise the
description and the amount of the first transaction with the id are replaced,
and no other transaction, nor the order, nor the offset is changed.  When only
one transaction has the id, the expenses whose id is not the given one are the
expenses other than the edited one. -/
theorem saveExpenseEdit_spec (s : Ledger) (transactionId : Int) (newDescription : String)
    (newAmount : Option ℚ) (hd : newDescription ≠ "")
    (hmem : ∃ t ∈ s.transactions, t.id = transactionId) :
    ((newAmount = none ∨ ∃ a, newAmount = some a ∧ a ≤ 0) →
      saveExpenseEdit s transactionId newDescription newAmount =
        { ledger := s, alert := some .enterValidAmount }) ∧
    ((∃ b, (saveExpenseEdit s transactionId newDescription newAmount).alert =
          some (.insufficientFunds b)) ↔
      ∃ a, newAmount = some a ∧ 0 < a ∧ a > availableForEdit s.transactions transactionId) ∧
    ((saveExpenseEdit s transactionId newDescription newAmount).alert ≠ none →
      (saveExpenseEdit s transactionId newDescription newAmount).ledger = s) ∧
    (∀ a, newAmount = some a → 0 < a → a ≤ availableForEdit s.transactions transactionId →
      ∃ before t after, s.transactions = before ++ t :: after ∧ t.id = transactionId ∧
        (∀ u ∈ before, u.id ≠ transactionId) ∧
        saveExpenseEdit s transactionId newDescription newAmount =
          { ledger :=
              { transactions :=
                  before ++ { t with description := newDescription, amount := a } :: after,
                balanceOffset := s.balanceOffset },
            alert := none }) ∧
    (s.transactions.countP (fun t => t.id == transactionId) = 1 →
      availableForEdit s.transactions transactionId =
        availableOtherThanEdited s.transactions transactionId) := by
  refine ⟨saveExpenseEdit_invalid s transactionId newDescription newAmount hd, ?_, ?_, ?_, ?_⟩
  · constructor
    · rintro ⟨b, hb⟩
      cases newAmount with
      | none =>
        rw [saveExpenseEdit_invalid s transactionId newDescription none hd (Or.inl rfl)] at hb
        simp at hb
      | some a =>
        by_cases ha : 0 < a
        · refine ⟨a, rfl, ha, ?_⟩
          by_contra hnot
          rw [saveExpenseEdit_valid s transactionId newDescription a hd ha, if_neg hnot] at hb
          simp at hb
        · rw [saveExpenseEdit_invalid s transactionId newDescription (some a) hd
            (Or.inr ⟨a, rfl, not_lt.mp ha⟩)] at hb
          simp at hb
    · rintro ⟨a, rfl, ha, hover⟩
      rw [saveExpenseEdit_valid s transactionId newDescription a hd ha, if_pos hover]
      exact ⟨_, rfl⟩
  · intro halert
    cases newAmount with
    | none =>
      rw [saveExpenseEdit_invalid s transactionId newDescription none hd (Or.inl rfl)]
    | some a =>
      by_cases ha : 0 < a
      · rw [saveExpenseEdit_valid s transactionId newDescription a hd ha] at halert ⊢
        by_cases hover : a > availableForEdit s.transactions transactionId
        · rw [if_pos hover]
        · rw [if_neg hover] at halert
          simp at halert
      · rw [saveExpenseEdit_invalid s transactionId newDescription (some a) hd
          (Or.inr ⟨a, rfl, not_lt.mp ha⟩)]
  · rintro a rfl ha hle
    obtain ⟨before, t, after, e, hid, hb, hassign⟩ :=
      assignFirst_split s.transactions transactionId newDescription a hmem
    refine ⟨before, t, after, e, hid, hb, ?_⟩
    rw [saveExpenseEdit_valid s transactionId newDescription a hd ha, if_neg (not_lt.mpr hle),
      hassign]
  · intro hone
    simp only [availableForEdit, availableOtherThanEdited,
      filter_expense_withoutEdited s.transactions transactionId hone]

/-- Witness of C14: the Groceries of the scenario are edited to Lunch 20. -/
theorem saveExpenseEdit_spec_witness :
    ("Lunch" ≠ "" ∧ ∃ t ∈ scenarioLedger.transactions, t.id = 1706263200000) ∧
      ((saveExpenseEdit scenarioLedger 1706263200000 "Lunch" (some 20)).alert ≠ none →
        (saveExpenseEdit scenarioLedger 1706263200000 "Lunch" (some 20)).ledger =
          scenarioLedger) :=
  have hd : "Lunch" ≠ "" := by decide
  have hmem : ∃ t ∈ scenarioLedger.transactions, t.id = 1706263200000 :=
    ⟨_, List.mem_cons_self _ _, rfl⟩
  ⟨⟨hd, hmem⟩,
    (saveExpenseEdit_spec scenarioLedger 1706263200000 "Lunch" (some 20) hd hmem).2.2.1⟩

/-! ### Category history -/

/-- The filter of lines 443-448 keeps the transactions that match the report. -/
theorem historyFilter_eq (parseDate : String → Option JSDate) (category : String) (p : JSDate)
    (t : Transaction) :
    (if (t.type != "expense" || t.category != category) = true then false
      else if includes t.description "Balance Adjustment" = true then false
      else if includes t.description "Manual Balance Correction" = true then false
      else isDateTextInPayPeriod parseDate t.date p) =
      matchesReport parseDate category p t := by
  simp only [matchesReport, notAdjustment, bne]
  by_cases h1 : (t.type == "expense") = true <;>
    by_cases h2 : (t.category == category) = true <;>
    by_cases h3 : includes t.description "Balance Adjustment" = true <;>
    by_cases h4 : includes t.description "Manual Balance Correction" = true <;>
    simp [h1, h2, h3, h4]

theorem updateHistoryForPayPeriod_entries_eq (parseDate : String → Option JSDate) (s : Ledger)
    (p : JSDate) (category : String) :
    (updateHistoryForPayPeriod parseDate s p category).entries =
      s.transactions.filter (matchesReport parseDate category p) := by
  have hf : ∀ ts : List Transaction, ts.filter (fun t =>
      if (t.type != "expense" || t.category != category) = true then false
      else if includes t.description "Balance Adjustment" = true then false
      else if includes t.description "Manual Balance Correction" = true then false
      else isDateTextInPayPeriod parseDate t.date p) =
      ts.filter (matchesReport parseDate category p) := by
    intro ts
    apply List.filter_congr
    intro t _
    exact historyFilter_eq parseDate category p t
  unfold updateHistoryForPayPeriod
  simp only [hf]
  split <;> rfl

theorem updateHistoryForPayPeriod_total_eq (parseDate : String → Option JSDate) (s : Ledger)
    (p : JSDate) (category : String) :
    (updateHistoryForPayPeriod parseDate s p category).total =
      ((updateHistoryForPayPeriod parseDate s p category).entries.map Transaction.amount).sum := by
  unfold updateHistoryForPayPeriod
  simp only
  generalize List.filter _ s.transactions = cats
  split
  · rename_i h
    simp only [beq_iff_eq, List.length_eq_zero] at h
    subst h
    rfl
  · simp only [sumAmounts_eq_sum]

/-- C15: the entries that updateHistoryForPayPeriod reports are the
transactions of the ledger, in its order, that are expenses of the category,
have no sentinel in the description and have a date in the displayed period;
the total is the sum of their amounts, 0 when there are none.  With the ledger
of the scenario and the period of the date of the Groceries (2024-01-26),
however the platform reads that date in a year that the constructor reads as
written (any year but 0 to 99), the category Food has 1 entry and the total
50. -/
theorem updateHistoryForPayPeriod_report :
    (∀ (parseDate : String → Option JSDate) (s : Ledger) (p : JSDate) (category : String),
      (updateHistoryForPayPeriod parseDate s p category).entries =
          s.transactions.filter (matchesReport parseDate category p) ∧
        List.Sublist (updateHistoryForPayPeriod parseDate s p category).entries
          s.transactions ∧
        (updateHistoryForPayPeriod parseDate s p category).total =
          ((updateHistoryForPayPeriod parseDate s p category).entries.map
            Transaction.amount).sum ∧
        ((updateHistoryForPayPeriod parseDate s p category).entries = [] →
          (updateHistoryForPayPeriod parseDate s p category).total = 0)) ∧
    (∀ (parseDate : String → Option JSDate) (d : JSDate),
      parseDate "2024-01-26T10:00:00.000Z" = some d → (d.year < 0 ∨ 99 < d.year) →
        (updateHistoryForPayPeriod parseDate scenarioLedger (getPayPeriodStart d)
            "Food").entries.length = 1 ∧
          (updateHistoryForPayPeriod parseDate scenarioLedger (getPayPeriodStart d)
            "Food").total = 50) := by
  refine ⟨?_, ?_⟩
  · intro parseDate s p category
    refine ⟨updateHistoryForPayPeriod_entries_eq parseDate s p category, ?_,
      updateHistoryForPayPeriod_total_eq parseDate s p category, ?_⟩
    · rw [updateHistoryForPayPeriod_entries_eq]
      exact List.filter_sublist _
    · intro h
      rw [updateHistoryForPayPeriod_total_eq, h]
      rfl
  · intro parseDate d hd hy
    have hin : isTransactionInPayPeriod d (getPayPeriodStart d) = true :=
      own_period_of_year d hy
    have e1 : includes "Groceries" "Balance Adjustment" = false := by decide
    have e2 : includes "Groceries" "Manual Balance Correction" = false := by decide
    have e3 : ("income" == "expense") = false := by decide
    have hentries : (updateHistoryForPayPeriod parseDate scenarioLedger (getPayPeriodStart d)
        "Food").entries =
        [{ id := 1706263200000, description := "Groceries", amount := 50, type := "expense",
           category := "Food", date := "2024-01-26T10:00:00.000Z" }] := by
      rw [updateHistoryForPayPeriod_entries_eq]
      simp [scenarioLedger, List.filter_cons, matchesReport, notAdjustment,
        isDateTextInPayPeriod, hd, hin, e1, e2, e3]
    refine ⟨by rw [hentries]; rfl, ?_⟩
    rw [updateHistoryForPayPeriod_total_eq, hentries]
    simp

/-- Witness of C15: the dates read as instants in the zone UTC. -/
theorem updateHistoryForPayPeriod_report_witness :
    parseInstantUTC "2024-01-26T10:00:00.000Z" = some jan26Morning ∧
      ((updateHistoryForPayPeriod parseInstantUTC scenarioLedger (getPayPeriodStart jan26Morning)
          "Food").entries.length = 1 ∧
        (updateHistoryForPayPeriod parseInstantUTC scenarioLedger (getPayPeriodStart jan26Morning)
          "Food").total = 50) :=
  have h : parseInstantUTC "2024-01-26T10:00:00.000Z" = some jan26Morning := by decide
  ⟨h, updateHistoryForPayPeriod_report.2 parseInstantUTC jan26Morning h (by decide)⟩

/-! ### The percentage of the initial balance -/

theorem foldl_add_ratio (ts : List Transaction) (b a : ℚ) :
    ts.foldl (fun sum t => sum + (t.amount / b * 100)) a =
      a + (ts.map (fun t => t.amount / b * 100)).sum := by
  induction ts generalizing a with
  | nil => simp
  | cons t ts ih => simp only [List.foldl_cons, ih, List.map_cons, List.sum_cons]; ring

theorem sum_ratio (ts : List Transaction) (b : ℚ) :
    (ts.map (fun t => t.amount / b * 100)).sum = (ts.map Transaction.amount).sum / b * 100 := by
  induction ts with
  | nil => simp
  | cons t ts ih => simp only [List.map_cons, List.sum_cons, ih]; ring

theorem startOfDay_of_isPeriodStart (p : JSDate) (hp : IsPeriodStart p) : p.startOfDay = p := by
  rw [JSDate.ext_iff]
  simp [JSDate.startOfDay, hp.2]

/-- C16: for a period start, the initial balance of the report is the income
dated strictly before the period start minus the expenses dated strictly
before it, over the whole list.  When it is positive, the percentage of the
report is the sum over the entries of amount / initialBalance * 100, and that
sum equals total / initialBalance * 100; when it is not positive, the
percentage is 0. -/
theorem updateHistoryForPayPeriod_totalPercentage (parseDate : String → Option JSDate)
    (s : Ledger) (p : JSDate) (category : String) (hp : IsPeriodStart p) :
    getInitialBalanceForPayPeriod parseDate s p =
        initialBalanceBefore parseDate s.transactions p ∧
      (0 < getInitialBalanceForPayPeriod parseDate s p →
        (updateHistoryForPayPeriod parseDate s p category).totalPercentage =
            ((updateHistoryForPayPeriod parseDate s p category).entries.map
              (fun t => t.amount / getInitialBalanceForPayPeriod parseDate s p * 100)).sum ∧
          (updateHistoryForPayPeriod parseDate s p category).totalPercentage =
            (updateHistoryForPayPeriod parseDate s p category).total /
              getInitialBalanceForPayPeriod parseDate s p * 100) ∧
      (getInitialBalanceForPayPeriod parseDate s p ≤ 0 →
        (updateHistoryForPayPeriod parseDate s p category).totalPercentage = 0) := by
  refine ⟨?_, ?_, ?_⟩
  · simp only [getInitialBalanceForPayPeriod, initialBalanceBefore, sumAmounts_eq_sum,
      startOfDay_of_isPeriodStart p hp, isDateTextBefore, datedBefore]
  · intro hpos
    have hsum : (updateHistoryForPayPeriod parseDate s p category).totalPercentage =
        ((updateHistoryForPayPeriod parseDate s p category).entries.map
          (fun t => t.amount / getInitialBalanceForPayPeriod parseDate s p * 100)).sum := by
      unfold updateHistoryForPayPeriod
      simp only
      generalize List.filter _ s.transactions = cats
      split
      · rename_i h
        simp only [beq_iff_eq, List.length_eq_zero] at h
        subst h
        rfl
      · simp only [hpos, gt_iff_lt, if_true, foldl_add_ratio, zero_add]
    refine ⟨hsum, ?_⟩
    rw [hsum, sum_ratio, ← updateHistoryForPayPeriod_total_eq]
  · intro hle
    unfold updateHistoryForPayPeriod
    simp only
    generalize List.filter _ s.transactions = cats
    split
    · rfl
    · simp only [gt_iff_lt, not_lt.mpr hle, if_false]

/-- Witness of C16: the ledger of the scenario and the period that starts on
2024-01-25, with the dates read as instants in the zone UTC. -/
theorem updateHistoryForPayPeriod_totalPercentage_witness :
    IsPeriodStart jan25 ∧
      getInitialBalanceForPayPeriod parseInstantUTC scenarioLedger jan25 =
        initialBalanceBefore parseInstantUTC scenarioLedger.transactions jan25 :=
  ⟨by decide,
    (updateHistoryForPayPeriod_totalPercentage parseInstantUTC scenarioLedger jan25 "Food"
      (by decide)).1⟩

end FinanceTracker
